import Mathlib

/-!
# The JSON status serializer of monit (`src/http/json.c`)

A shallow embedding of `json.c`: the output `StringBuffer_T` is the list of
characters appended so far, every function takes the buffer and returns the
extended buffer, and the data read through `Service_T`, `Event_T`, `Run` and
`systeminfo` is passed explicitly.
-/

namespace MonitJson

/-! ## Characters, C strings and the output buffer -/

/-- The C `char` is modelled by `Char`; the terminator of a C string. -/
def NUL : Char := Char.ofNat 0

/-- The backslash character. -/
def BACKSLASH : Char := Char.ofNat 92

/-- The double-quote character. -/
def DQUOTE : Char := Char.ofNat 34

/-- The memory a `const char *` points to, as the characters found from the pointer on. -/
abbrev CStr := List Char

/-- The string a `const char *` denotes: the characters before the first NUL
(the end of the list stands for the terminator when no NUL is stored). -/
def cstring (p : CStr) : List Char :=
  p.takeWhile (fun c => c != NUL)

/-- The `StringBuffer_T` of libmonit, as the characters appended so far. -/
abbrev StringBuffer_T := List Char

/-- The function `_escapeJSON(B, buf)` of json.c: the loop `for (i = 0; buf[i]; i++)`
appending two characters for a backslash or a double-quote and `%c` otherwise. -/
def _escapeJSON (B : StringBuffer_T) : CStr → StringBuffer_T
  | [] => B
  | c :: buf =>
    if c = NUL then B
    else if c = BACKSLASH then _escapeJSON (B ++ [BACKSLASH, BACKSLASH]) buf
    else if c = DQUOTE then _escapeJSON (B ++ [BACKSLASH, DQUOTE]) buf
    else _escapeJSON (B ++ [c]) buf

/-- The escaping rule in the words of the specification: the fragment that one
character of the input contributes to the output. -/
def escapeRule (c : Char) : List Char :=
  if c = BACKSLASH then [BACKSLASH, BACKSLASH]
  else if c = DQUOTE then [BACKSLASH, DQUOTE]
  else [c]

/-! ## A decoder for the body of a JSON string literal (RFC 8259, section 7) -/

/-- Value of a hexadecimal digit. -/
def hexVal (c : Char) : Option Nat :=
  let n := c.toNat
  if 48 ≤ n ∧ n ≤ 57 then some (n - 48)
  else if 65 ≤ n ∧ n ≤ 70 then some (n - 55)
  else if 97 ≤ n ∧ n ≤ 102 then some (n - 87)
  else none

/-- UTF-8 encoding of a code point, one `Char` per byte. -/
def utf8 (cp : Nat) : List Char :=
  if cp < 0x80 then [Char.ofNat cp]
  else if cp < 0x800 then [Char.ofNat (0xC0 + cp / 64), Char.ofNat (0x80 + cp % 64)]
  else if cp < 0x10000 then
    [Char.ofNat (0xE0 + cp / 4096), Char.ofNat (0x80 + cp / 64 % 64), Char.ofNat (0x80 + cp % 64)]
  else
    [Char.ofNat (0xF0 + cp / 262144), Char.ofNat (0x80 + cp / 4096 % 64),
     Char.ofNat (0x80 + cp / 64 % 64), Char.ofNat (0x80 + cp % 64)]

/-- The character a two-character escape of RFC 8259 stands for
(quotation mark, reverse solidus, solidus, b, f, n, r, t). -/
def simpleEscape (e : Char) : Option Char :=
  if e = DQUOTE then some DQUOTE
  else if e = BACKSLASH then some BACKSLASH
  else if e = '/' then some '/'
  else if e = 'b' then some (Char.ofNat 8)
  else if e = 'f' then some (Char.ofNat 12)
  else if e = 'n' then some (Char.ofNat 10)
  else if e = 'r' then some (Char.ofNat 13)
  else if e = 't' then some (Char.ofNat 9)
  else none

/-- State of the string decoder: between characters, after a backslash, inside the
four hexadecimal digits of a `u` escape, or between the halves of a surrogate pair. -/
inductive StrState where
  | normal
  | escaped
  | hex (remaining : Nat) (acc : Nat) (high : Option Nat)
  | lowBackslash (high : Nat)
  | lowU (high : Nat)
  deriving DecidableEq

/-- What a completed `u` escape with value `u` yields, given a pending high surrogate. -/
def hexDone (u : Nat) : Option Nat → Option (StrState × List Char)
  | none =>
    if 0xD800 ≤ u ∧ u < 0xDC00 then some (StrState.lowBackslash u, [])
    else if 0xDC00 ≤ u ∧ u < 0xE000 then none
    else some (StrState.normal, utf8 u)
  | some h =>
    if 0xDC00 ≤ u ∧ u < 0xE000 then
      some (StrState.normal, utf8 (0x10000 + (h - 0xD800) * 1024 + (u - 0xDC00)))
    else none

/-- One step of the decoder. In the normal state the grammar admits as unescaped
exactly the characters from 0x20 on other than the quotation mark and the reverse
solidus; a control character (below 0x20) or a bare quotation mark is rejected. -/
def strStep : StrState → Char → Option (StrState × List Char)
  | StrState.normal, c =>
    if c = DQUOTE then none
    else if c = BACKSLASH then some (StrState.escaped, [])
    else if c.toNat < 0x20 then none
    else some (StrState.normal, [c])
  | StrState.escaped, c =>
    if c = 'u' then some (StrState.hex 4 0 none, [])
    else (simpleEscape c).map (fun d => (StrState.normal, [d]))
  | StrState.hex remaining acc high, c =>
    match hexVal c with
    | none => none
    | some d =>
      if remaining ≤ 1 then hexDone (acc * 16 + d) high
      else some (StrState.hex (remaining - 1) (acc * 16 + d) high, [])
  | StrState.lowBackslash h, c => if c = BACKSLASH then some (StrState.lowU h, []) else none
  | StrState.lowU h, c => if c = 'u' then some (StrState.hex 4 0 (some h), []) else none

/-- Runs the decoder over the body; the body must end between characters. -/
def strRun : StrState → List Char → Option (List Char)
  | StrState.normal, [] => some []
  | _, [] => none
  | st, c :: cs =>
    match strStep st c with
    | none => none
    | some (st2, out) => (strRun st2 cs).map (fun r => out ++ r)

/-- A decoder compliant with RFC 8259 for the text between the quotation marks of a
string literal: `some s` when the body follows the grammar and denotes `s`, `none`
when the body is not a string body of the grammar. Characters from 0x80 on are
copied (they are the bytes of UTF-8 sequences). -/
def jsonStringDecode (body : List Char) : Option (List Char) :=
  strRun StrState.normal body

/-! ## printf conversions -/

/-- The conversions `%u`, `%lu`, `%llu`: decimal digits of an unsigned value. -/
def fmt_u (n : Nat) : List Char := Nat.toDigits 10 n

/-- The conversions `%d`, `%ld`, `%lld`: decimal digits with a minus sign when negative. -/
def fmt_d : Int → List Char
  | Int.ofNat n => Nat.toDigits 10 n
  | Int.negSucc n => '-' :: Nat.toDigits 10 (n + 1)

/-- The conversion `%o`: octal digits of an unsigned value. -/
def fmt_o (n : Nat) : List Char := Nat.toDigits 8 n

/-- The conversion `%s` applied to a `char *`: the characters up to the terminator;
for a null pointer the C library prints `(null)`. -/
def fmt_s : Option CStr → List Char
  | some p => cstring p
  | none => "(null)".data

/-- The idiom `p ? p : ""` followed by `%s`: a null pointer prints as the empty string. -/
def fmt_s_or_empty : Option CStr → List Char
  | some p => cstring p
  | none => []

/-- The cast `(int)x`: reduction to the signed 32-bit range. -/
def toInt (x : Int) : Int := (x + 2 ^ 31) % 2 ^ 32 - 2 ^ 31

/-- The casts `(long long)x` and `(long)x` (LP64): reduction to the signed 64-bit range. -/
def toLongLong (x : Int) : Int := (x + 2 ^ 63) % 2 ^ 64 - 2 ^ 63

/-- The cast `(unsigned long long)x` of an integer: reduction modulo 2^64. -/
def toULongLong (x : Int) : Nat := (x % 2 ^ 64).toNat

/-! ## The C `double`

A finite `double` is kept as its exact value `(-1)^neg * mant * 2^exp`. The
operations json.c applies are the conversion from an integer, division,
multiplication, the comparison with zero, the cast to `unsigned long long` and
the `%.Nf` conversions; each rounds to nearest, ties to even, as IEEE 754
binary64 does in the default rounding mode. Infinities and NaN are not values
of the model, and no operation below produces one from the 64-bit integers and
constants json.c applies it to. -/

/-- A finite `double`, by sign, integer significand and binary exponent. -/
structure Dbl where
  neg : Bool
  mant : Nat
  exp : Int
  deriving DecidableEq

/-- The quotient `num / den` rounded to the nearest integer, ties to even. -/
def roundHalfEven (num den : Nat) : Nat :=
  let q := num / den
  let r := num % den
  if den < 2 * r ∨ (2 * r = den ∧ q % 2 = 1) then q + 1 else q

/-- Binary logarithm, rounded down, by repeated halving (`fuel` bounds the steps). -/
def log2Aux : Nat → Nat → Nat
  | 0, _ => 0
  | fuel + 1, n => if n < 2 then 0 else log2Aux fuel (n / 2) + 1

/-- Position of the leading bit of `n` (0 for `n < 2`). -/
def ilog2 (n : Nat) : Nat := log2Aux n n

/-- The exponent of the leading bit of the positive rational `num / den`. -/
def floorLog2 (num den : Nat) : Int :=
  let a := ilog2 num
  let b := ilog2 den
  if den * 2 ^ a ≤ num * 2 ^ b then (a : Int) - b else (a : Int) - b - 1

/-- The binary64 value nearest to `num / den * 2^e`: 53 significant bits, or fewer
below the smallest normal exponent. -/
def Dbl.round (neg : Bool) (num den : Nat) (e : Int) : Dbl :=
  if num = 0 ∨ den = 0 then ⟨neg, 0, 0⟩
  else
    let t := max (floorLog2 num den + e - 52) (-1074)
    match e - t with
    | Int.ofNat a => ⟨neg, roundHalfEven (num * 2 ^ a) den, t⟩
    | Int.negSucc a => ⟨neg, roundHalfEven num (den * 2 ^ (a + 1)), t⟩

/-- The conversion `(double)i` of an integer; exact below 2^53. -/
def Dbl.ofInt : Int → Dbl
  | Int.ofNat n => if n < 2 ^ 53 then ⟨false, n, 0⟩ else Dbl.round false n 1 0
  | Int.negSucc n => if n + 1 < 2 ^ 53 then ⟨true, n + 1, 0⟩ else Dbl.round true (n + 1) 1 0

/-- The quotient `x / y` for a non-zero divisor (json.c divides by constants only). -/
def Dbl.div (x y : Dbl) : Dbl :=
  Dbl.round (xor x.neg y.neg) x.mant y.mant (x.exp - y.exp)

/-- The product `x * y`. -/
def Dbl.mul (x y : Dbl) : Dbl :=
  Dbl.round (xor x.neg y.neg) (x.mant * y.mant) 1 (x.exp + y.exp)

/-- The comparison `x > 0.`. -/
def Dbl.gtZero (x : Dbl) : Bool := !x.neg && decide (0 < x.mant)

/-- The cast `(unsigned long long)x` of a non-negative `double`: the fraction is discarded. -/
def Dbl.toULongLong (x : Dbl) : Nat :=
  match x.exp with
  | Int.ofNat e => x.mant * 2 ^ e
  | Int.negSucc e => x.mant / 2 ^ (e + 1)

/-- The magnitude of `x` times `k`, rounded to the nearest integer, ties to even. -/
def Dbl.scaled (x : Dbl) (k : Nat) : Nat :=
  match x.exp with
  | Int.ofNat e => x.mant * k * 2 ^ e
  | Int.negSucc e => roundHalfEven (x.mant * k) (2 ^ (e + 1))

/-- The decimal digits of `n`, padded with zeros on the left to width `w`. -/
def padDigits (w n : Nat) : List Char :=
  let d := Nat.toDigits 10 n
  List.replicate (w - d.length) '0' ++ d

/-- The conversion `%.Nf` with `p` digits after the point: the exact value rounded to
`p` decimals, ties to even, with a minus sign when the sign bit is set. -/
def fmt_f (p : Nat) (x : Dbl) : List Char :=
  let n := x.scaled (10 ^ p)
  (if x.neg then ['-'] else []) ++ Nat.toDigits 10 (n / 10 ^ p) ++
    (if p = 0 then [] else '.' :: padDigits p (n % 10 ^ p))

/-- The literal `-1.`. -/
def Dbl.minusOne : Dbl := ⟨true, 1, 0⟩

/-- The literal `0.`. -/
def Dbl.zero : Dbl := ⟨false, 0, 0⟩

/-- The literal `1000.`. -/
def Dbl.c1000 : Dbl := ⟨false, 1000, 0⟩

/-- The literal `1024.`. -/
def Dbl.c1024 : Dbl := ⟨false, 1024, 0⟩

/-- The literal `1048576.`. -/
def Dbl.c1048576 : Dbl := ⟨false, 1048576, 0⟩

/-- The expression `(unsigned long long)((double)x / 1024.)` that json.c applies to the
byte counts of memory and swap (an unsigned 64-bit `x`). -/
def bytesToKilobytes (x : Nat) : Nat :=
  (Dbl.div (Dbl.ofInt (Int.ofNat x)) Dbl.c1024).toULongLong

/-- The `struct timeval` of a collection time. -/
structure timeval where
  tv_sec : Int
  tv_usec : Int

/-- Modelled from the spec: the enumeration `Service_Type` of monit.h, which is not
among the sources; one enumerator for each kind of service the specification
lists, `Service_Host` being the generic kind. -/
inductive Service_Type where
  | Service_Filesystem
  | Service_Directory
  | Service_File
  | Service_Process
  | Service_Host
  | Service_System
  | Service_Fifo
  | Service_Program
  | Service_Net
  deriving DecidableEq

/-- An element of `S->dependantlist`. -/
structure Dependant_T where
  dependant : Option CStr

/-- The object `S->checksum` points to. -/
structure Checksum_T where
  type : Int

/-- An element of `S->icmplist`. -/
structure Icmp_T where
  type : Int
  is_available : Int
  response : Dbl

/-- An element of `S->portlist` or `S->socketlist`; `protocol_name` is `p->protocol->name`,
`target_net_port` is `p->target.net.port`, `target_unix_pathname` is
`p->target.unix.pathname`. -/
structure Port_T where
  hostname : Option CStr
  target_net_port : Int
  target_unix_pathname : Option CStr
  protocol_name : Option CStr
  is_available : Int
  response : Dbl

/-- The members of `S->inf->priv.file`. -/
structure FileInfo where
  mode : Int
  uid : Int
  gid : Int
  timestamp : Int
  size : Int
  cs_sum : CStr

/-- The members of `S->inf->priv.directory` and of `S->inf->priv.fifo`. -/
structure DirectoryInfo where
  mode : Int
  uid : Int
  gid : Int
  timestamp : Int

/-- The members of `S->inf->priv.filesystem`. -/
structure FilesystemInfo where
  mode : Int
  uid : Int
  gid : Int
  flags : Int
  space_percent : Dbl
  space_total : Int
  f_bsize : Int
  f_blocks : Int
  f_files : Int
  inode_percent : Dbl
  inode_total : Int

/-- The object `S->inf->priv.net.stats`, by the value each `Link_get...` accessor
returns for it. -/
structure LinkStats where
  Link_getState : Int
  Link_getSpeed : Int
  Link_getDuplex : Int
  Link_getPacketsInPerSecond : Int
  Link_getPacketsInTotal : Int
  Link_getBytesInPerSecond : Int
  Link_getBytesInTotal : Int
  Link_getErrorsInPerSecond : Int
  Link_getErrorsInTotal : Int
  Link_getPacketsOutPerSecond : Int
  Link_getPacketsOutTotal : Int
  Link_getBytesOutPerSecond : Int
  Link_getBytesOutTotal : Int
  Link_getErrorsOutPerSecond : Int
  Link_getErrorsOutTotal : Int

/-- The members of `S->inf->priv.process`; `mem` and `total_mem` are unsigned byte counts. -/
structure ProcessInfo where
  pid : Int
  ppid : Int
  uid : Int
  euid : Int
  gid : Int
  uptime : Int
  threads : Int
  children : Int
  mem_percent : Dbl
  total_mem_percent : Dbl
  mem : Nat
  total_mem : Nat
  cpu_percent : Dbl
  total_cpu_percent : Dbl

/-- The union `S->inf->priv`, its members side by side. -/
structure Info where
  file : FileInfo
  directory : DirectoryInfo
  fifo : DirectoryInfo
  filesystem : FilesystemInfo
  net_stats : LinkStats
  process : ProcessInfo

/-- The object `S->program` points to; `output` is `StringBuffer_toString(S->program->output)`. -/
structure Program_T where
  started : Int
  exitStatus : Int
  output : CStr

/-- The service object `Service_T`; `every_type`, `every_counter`, `every_number` and
`every_cron` are `S->every.type`, `S->every.spec.cycle.counter`,
`S->every.spec.cycle.number` and `S->every.spec.cron`. -/
structure Service_T where
  name : Option CStr
  type : Service_Type
  collected : timeval
  error : Int
  error_hint : Int
  monitor : Int
  mode : Int
  onreboot : Int
  doaction : Int
  dependantlist : List Dependant_T
  every_type : Int
  every_counter : Int
  every_number : Int
  every_cron : CStr
  inf : Info
  checksum : Option Checksum_T
  icmplist : List Icmp_T
  portlist : List Port_T
  socketlist : List Port_T
  program : Program_T
  token : Option CStr

/-- The service group object `ServiceGroup_T`, its member list in list order. -/
structure ServiceGroup_T where
  name : CStr
  members : List Service_T

/-- The event object `Event_T`. -/
structure Event_T where
  collected : timeval
  source : Service_T
  type : Int
  id : Int
  state : Int
  message : CStr

/-- The object `Run.mmonitcredentials` points to. -/
structure Auth_T where
  uname : CStr
  passwd : CStr

/-- The members of the global `Run` that json.c reads; `system_name` is
`Run.system->name`, `files_control` is `Run.files.control`, the `httpd_...` fields are
`Run.httpd.flags`, `Run.httpd.socket.net.address`, `Run.httpd.socket.net.port` and
`Run.httpd.socket.unix.path`. -/
structure Run_T where
  id : CStr
  incarnation : Int
  polltime : Int
  startdelay : Int
  system_name : Option CStr
  files_control : Option CStr
  httpd_flags : Nat
  httpd_socket_net_address : Option CStr
  httpd_socket_net_port : Int
  httpd_socket_unix_path : Option CStr
  mmonitcredentials : Option Auth_T
  flags : Nat

/-- The members of the global `systeminfo` that json.c reads; `mem_max`, `swap_max`,
`total_mem` and `total_swap` are unsigned byte counts. -/
structure SystemInfo_T where
  uname_sysname : CStr
  uname_release : CStr
  uname_version : CStr
  uname_machine : CStr
  cpus : Int
  mem_max : Nat
  swap_max : Nat
  loadavg_0 : Dbl
  loadavg_1 : Dbl
  loadavg_2 : Dbl
  total_cpu_user_percent : Dbl
  total_cpu_syst_percent : Dbl
  total_cpu_wait_percent : Dbl
  total_mem_percent : Dbl
  total_mem : Nat
  total_swap_percent : Dbl
  total_swap : Nat

/-- The constants, tables and configuration macros json.c takes from headers that are
not among the sources; their values are parameters of the model. -/
structure Monit_h where
  VERSION : CStr
  HAVE_CPU_WAIT : Bool
  Httpd_Net : Nat
  Httpd_Unix : Nat
  Httpd_Ssl : Nat
  Run_ProcessEngineEnabled : Nat
  Every_Cycle : Int
  Connection_Ok : Int
  Event_Instance : Int
  Service_Type_value : Service_Type → Int
  checksumnames : Int → CStr
  icmpnames : Int → CStr

/-- The functions json.c calls that are defined in other files of monit; each is a
parameter of the model. `ProcessTree_getProcessUptime_getpid` is the value of the call
`ProcessTree_getProcessUptime(getpid())`. -/
structure Extern where
  Util_hasServiceStatus : Service_T → Bool
  Util_portRequestDescription : Port_T → CStr
  Util_portTypeDescription : Port_T → CStr
  Event_get_action : Event_T → Int
  ProcessTree_getProcessUptime_getpid : Int

/-- Everything json.c reads besides its arguments: header constants, external functions
and the globals `Run`, `systeminfo`, `servicelist_conf` (linked by `next_conf`) and
`servicegrouplist` (linked by `next`). -/
structure Env where
  h : Monit_h
  x : Extern
  Run : Run_T
  systeminfo : SystemInfo_T
  servicelist_conf : List Service_T
  servicegrouplist : List ServiceGroup_T

/-! ## The functions of json.c -/

/-- The function `json_document_head(B, V, myip)`. -/
def json_document_head (M : Env) (B : StringBuffer_T) (V : Int) (myip : Option CStr) :
    StringBuffer_T :=
  let B :=
    if V = 2 then
      B ++ "\x7b\"monit\":\x7b\"@id\":\"".data ++ cstring M.Run.id
        ++ "\",\"@incarnation\":".data ++ fmt_d (toLongLong M.Run.incarnation)
        ++ ",\"@version\":\"".data ++ cstring M.h.VERSION ++ "\",\"server\":\x7b".data
    else
      B ++ "\x7b\"monit\":\x7b\"server\":\x7b\"id\":\"".data ++ cstring M.Run.id
        ++ "\",\"incarnation\":".data ++ fmt_d (toLongLong M.Run.incarnation)
        ++ ",\"version\":\"".data ++ cstring M.h.VERSION ++ "\",".data
  let B :=
    B ++ "\"uptime\":".data ++ fmt_d (toLongLong M.x.ProcessTree_getProcessUptime_getpid)
      ++ ",\"poll\":".data ++ fmt_d M.Run.polltime
      ++ ",\"startdelay\":".data ++ fmt_d M.Run.startdelay
      ++ ",\"localhostname\":\"".data ++ fmt_s_or_empty M.Run.system_name
      ++ "\",\"controlfile\":\"".data ++ fmt_s_or_empty M.Run.files_control ++ "\"".data
  let B :=
    if M.Run.httpd_flags &&& M.h.Httpd_Net ≠ 0 ∨ M.Run.httpd_flags &&& M.h.Httpd_Unix ≠ 0 then
      let B :=
        if M.Run.httpd_flags &&& M.h.Httpd_Net ≠ 0 then
          B ++ ",\"httpd\":\x7b\"address\":\"".data
            ++ (match M.Run.httpd_socket_net_address with
                | some a => cstring a
                | none => fmt_s_or_empty myip)
            ++ "\",\"port\":".data ++ fmt_d M.Run.httpd_socket_net_port
            ++ ",\"ssl\":".data ++ fmt_d (Int.ofNat (M.Run.httpd_flags &&& M.h.Httpd_Ssl)) ++ "\x7d".data
        else if M.Run.httpd_flags &&& M.h.Httpd_Unix ≠ 0 then
          B ++ ",\"httpd\":\x7b\"unixsocket\":\"".data
            ++ fmt_s_or_empty M.Run.httpd_socket_unix_path ++ "\"\x7d".data
        else B
      match M.Run.mmonitcredentials with
      | some c =>
        B ++ ",\"credentials\":\x7b\"username\":\"".data ++ cstring c.uname
          ++ "\",\"password\":\"".data ++ cstring c.passwd ++ "\"\x7d".data
      | none => B
    else B
  B ++ "\x7d,\"platform\":\x7b\"name\":\"".data ++ cstring M.systeminfo.uname_sysname
    ++ "\",\"release\":\"".data ++ cstring M.systeminfo.uname_release
    ++ "\",\"version\":\"".data ++ cstring M.systeminfo.uname_version
    ++ "\",\"machine\":\"".data ++ cstring M.systeminfo.uname_machine
    ++ "\",\"cpu\":".data ++ fmt_d M.systeminfo.cpus
    ++ ",\"memory\":".data ++ fmt_u (bytesToKilobytes M.systeminfo.mem_max)
    ++ ",\"swap\":".data ++ fmt_u (bytesToKilobytes M.systeminfo.swap_max) ++ "\x7d,".data

/-- The function `json_document_foot(B)`. -/
def json_document_foot (B : StringBuffer_T) : StringBuffer_T :=
  B ++ "\x7d\x7d".data


/-- The loop over `S->dependantlist` in `json_status_service` (the variable `comma` is
passed along): an element whose `dependant` is NULL is skipped. -/
def json_dependants : List Dependant_T → StringBuffer_T → Bool → StringBuffer_T
  | [], B, _ => B
  | d :: next, B, comma =>
    match d.dependant with
    | some name =>
      let B := if comma then B ++ ",".data else B
      let B := B ++ "\"".data ++ cstring name ++ "\"".data
      json_dependants next B true
    | none => json_dependants next B comma

/-- The `switch (S->type)` of `json_status_service`. -/
def json_service_info (M : Env) (S : Service_T) (B : StringBuffer_T) : StringBuffer_T :=
  match S.type with
  | Service_Type.Service_File =>
    let B :=
      B ++ ",\"mode\":".data ++ fmt_o (S.inf.file.mode % 4096).toNat
        ++ ",\"uid\":".data ++ fmt_d (toInt S.inf.file.uid)
        ++ ",\"gid\":".data ++ fmt_d (toInt S.inf.file.gid)
        ++ ",\"timestamp\":".data ++ fmt_d (toLongLong S.inf.file.timestamp)
        ++ ",\"size\":".data ++ fmt_u (toULongLong S.inf.file.size)
    match S.checksum with
    | some cs =>
      B ++ ",\"checksum\":\x7b\"@type\":\"".data ++ cstring (M.h.checksumnames cs.type)
        ++ "\",\"#text\":\"".data ++ cstring S.inf.file.cs_sum ++ "\"\x7d".data
    | none => B
  | Service_Type.Service_Directory =>
    B ++ ",\"mode\":".data ++ fmt_o (S.inf.directory.mode % 4096).toNat
      ++ ",\"uid\":".data ++ fmt_d (toInt S.inf.directory.uid)
      ++ ",\"gid\":".data ++ fmt_d (toInt S.inf.directory.gid)
      ++ ",\"timestamp\":".data ++ fmt_d (toLongLong S.inf.directory.timestamp)
  | Service_Type.Service_Fifo =>
    B ++ ",\"mode\":".data ++ fmt_o (S.inf.fifo.mode % 4096).toNat
      ++ ",\"uid\":".data ++ fmt_d (toInt S.inf.fifo.uid)
      ++ ",\"gid\":".data ++ fmt_d (toInt S.inf.fifo.gid)
      ++ ",\"timestamp\":".data ++ fmt_d (toLongLong S.inf.fifo.timestamp)
  | Service_Type.Service_Filesystem =>
    let B :=
      B ++ ",\"mode\":".data ++ fmt_o (S.inf.filesystem.mode % 4096).toNat
        ++ ",\"uid\":".data ++ fmt_d (toInt S.inf.filesystem.uid)
        ++ ",\"gid\":".data ++ fmt_d (toInt S.inf.filesystem.gid)
        ++ ",\"flags\":".data ++ fmt_d S.inf.filesystem.flags
        ++ ",\"block\":\x7b\"percent\":".data ++ fmt_f 1 S.inf.filesystem.space_percent
        ++ ",\"usage\":".data
        ++ fmt_f 1 (if 0 < S.inf.filesystem.f_bsize then
              Dbl.mul (Dbl.div (Dbl.ofInt S.inf.filesystem.space_total) Dbl.c1048576)
                (Dbl.ofInt S.inf.filesystem.f_bsize)
            else Dbl.zero)
        ++ ",\"total\":".data
        ++ fmt_f 1 (if 0 < S.inf.filesystem.f_bsize then
              Dbl.mul (Dbl.div (Dbl.ofInt S.inf.filesystem.f_blocks) Dbl.c1048576)
                (Dbl.ofInt S.inf.filesystem.f_bsize)
            else Dbl.zero)
        ++ "\x7d".data
    if 0 < S.inf.filesystem.f_files then
      B ++ ",\"inode\":\x7b\"percent\":".data ++ fmt_f 1 S.inf.filesystem.inode_percent
        ++ ",\"usage\":".data ++ fmt_d S.inf.filesystem.inode_total
        ++ ",\"total\":".data ++ fmt_d S.inf.filesystem.f_files ++ "\x7d".data
    else B
  | Service_Type.Service_Net =>
    B ++ ",\"link\":\x7b\"state\":".data ++ fmt_d S.inf.net_stats.Link_getState
      ++ ",\"speed\":".data ++ fmt_d S.inf.net_stats.Link_getSpeed
      ++ ",\"duplex\":".data ++ fmt_d S.inf.net_stats.Link_getDuplex
      ++ ",\"download\":\x7b\"packets\":\x7b\"now\":".data ++ fmt_d S.inf.net_stats.Link_getPacketsInPerSecond
      ++ ",\"total\":".data ++ fmt_d S.inf.net_stats.Link_getPacketsInTotal
      ++ "\x7d,\"bytes\":\x7b\"now\":".data ++ fmt_d S.inf.net_stats.Link_getBytesInPerSecond
      ++ ",\"total\":".data ++ fmt_d S.inf.net_stats.Link_getBytesInTotal
      ++ "\x7d,\"errors\":\x7b\"now\":".data ++ fmt_d S.inf.net_stats.Link_getErrorsInPerSecond
      ++ ",\"total\":".data ++ fmt_d S.inf.net_stats.Link_getErrorsInTotal
      ++ "\x7d\x7d,\"upload\":\x7b\"packets\":\x7b\"now\":".data ++ fmt_d S.inf.net_stats.Link_getPacketsOutPerSecond
      ++ ",\"total\":".data ++ fmt_d S.inf.net_stats.Link_getPacketsOutTotal
      ++ "\x7d,\"bytes\":\x7b\"now\":".data ++ fmt_d S.inf.net_stats.Link_getBytesOutPerSecond
      ++ ",\"total\":".data ++ fmt_d S.inf.net_stats.Link_getBytesOutTotal
      ++ "\x7d,\"errors\":\x7b\"now\":".data ++ fmt_d S.inf.net_stats.Link_getErrorsOutPerSecond
      ++ ",\"total\":".data ++ fmt_d S.inf.net_stats.Link_getErrorsOutTotal
      ++ "\x7d\x7d\x7d".data
  | Service_Type.Service_Process =>
    let B :=
      B ++ ",\"pid\":".data ++ fmt_d S.inf.process.pid
        ++ ",\"ppid\":".data ++ fmt_d S.inf.process.ppid
        ++ ",\"uid\":".data ++ fmt_d S.inf.process.uid
        ++ ",\"euid\":".data ++ fmt_d S.inf.process.euid
        ++ ",\"gid\":".data ++ fmt_d S.inf.process.gid
        ++ ",\"uptime\":".data ++ fmt_d (toLongLong S.inf.process.uptime)
    if M.Run.flags &&& M.h.Run_ProcessEngineEnabled ≠ 0 then
      B ++ ",\"threads\":".data ++ fmt_d S.inf.process.threads
        ++ ",\"children\":".data ++ fmt_d S.inf.process.children
        ++ ",\"memory\":\x7b\"percent\":".data ++ fmt_f 1 S.inf.process.mem_percent
        ++ ",\"percenttotal\":".data ++ fmt_f 1 S.inf.process.total_mem_percent
        ++ ",\"kilobyte\":".data ++ fmt_u (bytesToKilobytes S.inf.process.mem)
        ++ ",\"kilobytetotal\":".data ++ fmt_u (bytesToKilobytes S.inf.process.total_mem)
        ++ "\x7d,\"cpu\":\x7b\"percent\":".data ++ fmt_f 1 S.inf.process.cpu_percent
        ++ ",\"percenttotal\":".data ++ fmt_f 1 S.inf.process.total_cpu_percent ++ "\x7d".data
    else B
  | _ => B

/-- The `StringBuffer_append` in the body of the loop over `S->icmplist`. -/
def json_icmp (M : Env) (i : Icmp_T) (B : StringBuffer_T) : StringBuffer_T :=
  B ++ "\x7b\"type\":\"".data ++ cstring (M.h.icmpnames i.type)
    ++ "\",\"responsetime\":".data
    ++ fmt_f 6 (if i.is_available = M.h.Connection_Ok then Dbl.div i.response Dbl.c1000
        else Dbl.minusOne)
    ++ "\x7d".data

/-- The two `StringBuffer_append` and the `_escapeJSON` between them in the body of the
loop over `S->portlist`. -/
def json_port (M : Env) (p : Port_T) (B : StringBuffer_T) : StringBuffer_T :=
  let B :=
    B ++ "\x7b\"hostname\":\"".data ++ fmt_s_or_empty p.hostname
      ++ "\",\"portnumber\":".data ++ fmt_d p.target_net_port ++ ",\"request\":\"".data
  let B := _escapeJSON B (M.x.Util_portRequestDescription p)
  B ++ "\",\"protocol\":\"".data ++ fmt_s_or_empty p.protocol_name
    ++ "\",\"type\":\"".data ++ cstring (M.x.Util_portTypeDescription p)
    ++ "\",\"responsetime\":".data
    ++ fmt_f 6 (if p.is_available = M.h.Connection_Ok then Dbl.div p.response Dbl.c1000
        else Dbl.minusOne)
    ++ "\x7d".data

/-- The `StringBuffer_append` in the body of the loop over `S->socketlist`. -/
def json_unix (M : Env) (p : Port_T) (B : StringBuffer_T) : StringBuffer_T :=
  B ++ "\x7b\"path\":\"".data ++ fmt_s_or_empty p.target_unix_pathname
    ++ "\",\"protocol\":\"".data ++ fmt_s_or_empty p.protocol_name
    ++ "\",\"responsetime\":".data
    ++ fmt_f 6 (if p.is_available = M.h.Connection_Ok then Dbl.div p.response Dbl.c1000
        else Dbl.minusOne)
    ++ "\x7d".data

/-- The loop over `S->icmplist` (the variable `comma` is passed along). -/
def json_icmp_loop (M : Env) : List Icmp_T → StringBuffer_T → Bool → StringBuffer_T
  | [], B, _ => B
  | i :: next, B, comma =>
    let B := if comma then B ++ ",".data else B
    json_icmp_loop M next (json_icmp M i B) true

/-- The loop over `S->portlist` (the variable `comma` is passed along). -/
def json_port_loop (M : Env) : List Port_T → StringBuffer_T → Bool → StringBuffer_T
  | [], B, _ => B
  | p :: next, B, comma =>
    let B := if comma then B ++ ",".data else B
    json_port_loop M next (json_port M p B) true

/-- The loop over `S->socketlist` (the variable `comma` is passed along). -/
def json_unix_loop (M : Env) : List Port_T → StringBuffer_T → Bool → StringBuffer_T
  | [], B, _ => B
  | p :: next, B, comma =>
    let B := if comma then B ++ ",".data else B
    json_unix_loop M next (json_unix M p B) true


/-- The first `StringBuffer_append` of `json_status_service`: the opening brace with the
type and the name, in the order of the format version. -/
def json_service_header (M : Env) (S : Service_T) (B : StringBuffer_T) (V : Int) :
    StringBuffer_T :=
  if V = 2 then
    B ++ "\x7b\"@name\":\"".data ++ fmt_s_or_empty S.name
      ++ "\",\"type\":".data ++ fmt_d (M.h.Service_Type_value S.type) ++ ",".data
  else
    B ++ "\x7b\"@type\":".data ++ fmt_d (M.h.Service_Type_value S.type)
      ++ ",\"name\":\"".data ++ fmt_s_or_empty S.name ++ "\",".data

/-- The second `StringBuffer_append` of `json_status_service`: the fields every service
has, up to the opening bracket of `depends_on`. -/
def json_service_common (S : Service_T) (B : StringBuffer_T) : StringBuffer_T :=
  B ++ "\"collected_sec\":".data ++ fmt_d (toLongLong S.collected.tv_sec)
    ++ ",\"collected_usec\":".data ++ fmt_d (toLongLong S.collected.tv_usec)
    ++ ",\"status\":".data ++ fmt_d S.error
    ++ ",\"status_hint\":".data ++ fmt_d S.error_hint
    ++ ",\"monitor\":".data ++ fmt_d S.monitor
    ++ ",\"monitormode\":".data ++ fmt_d S.mode
    ++ ",\"onreboot\":".data ++ fmt_d S.onreboot
    ++ ",\"pendingaction\":".data ++ fmt_d S.doaction
    ++ ",\"depends_on\":[".data

/-- The block `if (S->every.type != Every_Cycle)` of `json_status_service`. -/
def json_service_every (M : Env) (S : Service_T) (B : StringBuffer_T) : StringBuffer_T :=
  if S.every_type ≠ M.h.Every_Cycle then
    let B := B ++ ",\"every\":\x7b\"type\":".data ++ fmt_d S.every_type ++ ",".data
    let B :=
      if S.every_type = 1 then
        B ++ "\"counter\":".data ++ fmt_d S.every_counter
          ++ ",\"number\":".data ++ fmt_d S.every_number
      else
        B ++ "\"cron\":\"".data ++ cstring S.every_cron ++ "\"".data
    B ++ "\x7d".data
  else B

/-- The block `if (S->type == Service_System && (Run.flags & Run_ProcessEngineEnabled))`
of `json_status_service`. -/
def json_service_system (M : Env) (S : Service_T) (B : StringBuffer_T) : StringBuffer_T :=
  if S.type = Service_Type.Service_System
      ∧ M.Run.flags &&& M.h.Run_ProcessEngineEnabled ≠ 0 then
    B ++ ",\"system\":\x7b\"load\":\x7b\"avg01\":".data ++ fmt_f 2 M.systeminfo.loadavg_0
      ++ ",\"avg05\":".data ++ fmt_f 2 M.systeminfo.loadavg_1
      ++ ",\"avg15\":".data ++ fmt_f 2 M.systeminfo.loadavg_2
      ++ "\x7d,\"cpu\":\x7b\"user\":".data
      ++ fmt_f 1 (if M.systeminfo.total_cpu_user_percent.gtZero then
            M.systeminfo.total_cpu_user_percent else Dbl.zero)
      ++ ",\"system\":".data
      ++ fmt_f 1 (if M.systeminfo.total_cpu_syst_percent.gtZero then
            M.systeminfo.total_cpu_syst_percent else Dbl.zero)
      ++ (if M.h.HAVE_CPU_WAIT then
            ",\"wait\":".data
              ++ fmt_f 1 (if M.systeminfo.total_cpu_wait_percent.gtZero then
                    M.systeminfo.total_cpu_wait_percent else Dbl.zero)
          else [])
      ++ "\x7d,\"memory\":\x7b\"percent\":".data ++ fmt_f 1 M.systeminfo.total_mem_percent
      ++ ",\"kilobyte\":".data ++ fmt_u (bytesToKilobytes M.systeminfo.total_mem)
      ++ "\x7d,\"swap\":\x7b\"percent\":".data ++ fmt_f 1 M.systeminfo.total_swap_percent
      ++ ",\"kilobyte\":".data ++ fmt_u (bytesToKilobytes M.systeminfo.total_swap)
      ++ "\x7d\x7d".data
  else B

/-- The block `if (S->type == Service_Program && S->program->started)` of
`json_status_service`. -/
def json_service_program (S : Service_T) (B : StringBuffer_T) : StringBuffer_T :=
  if S.type = Service_Type.Service_Program ∧ S.program.started ≠ 0 then
    let B :=
      B ++ ",\"program\":\x7b\"started\":".data ++ fmt_d (toLongLong S.program.started)
        ++ ",\"status\":".data ++ fmt_d S.program.exitStatus ++ ",\"output\":\"".data
    let B := _escapeJSON B S.program.output
    B ++ "\"\x7d".data
  else B

/-- The function `json_status_service(S, B, V)`. -/
def json_status_service (M : Env) (S : Service_T) (B : StringBuffer_T) (V : Int) :
    StringBuffer_T :=
  let comma := false
  let B := json_service_header M S B V
  let B := json_service_common S B
  let B := json_dependants S.dependantlist B comma
  let comma := false
  let B := B ++ "]".data
  let B := json_service_every M S B
  let B :=
    if M.x.Util_hasServiceStatus S then
      let B := json_service_info M S B
      let B := B ++ ",\"icmp\":[".data
      let B := json_icmp_loop M S.icmplist B comma
      let B := B ++ "]".data
      let comma := false
      let B := B ++ ",\"port\":[".data
      let B := json_port_loop M S.portlist B comma
      let B := B ++ "]".data
      let comma := false
      let B := B ++ ",\"unix\":[".data
      let B := json_unix_loop M S.socketlist B comma
      let B := B ++ "]".data
      let B := json_service_system M S B
      json_service_program S B
    else B
  B ++ "\x7d".data

/-- The loop over `SG->members` in `json_status_servicegroup` (the variable `comma` is
passed along). -/
def json_members : List Service_T → StringBuffer_T → Bool → StringBuffer_T
  | [], B, _ => B
  | s :: next, B, comma =>
    let B := if comma then B ++ ",".data else B
    let B := B ++ "\"".data ++ fmt_s s.name ++ "\"".data
    json_members next B true

/-- The function `json_status_servicegroup(SG, B)`. -/
def json_status_servicegroup (SG : ServiceGroup_T) (B : StringBuffer_T) : StringBuffer_T :=
  let comma := false
  let B := B ++ "\x7b\"@name\":\"".data ++ cstring SG.name ++ "\",\"service\":[".data
  let B := json_members SG.members B comma
  B ++ "]\x7d".data

/-- The first `StringBuffer_append` of `json_status_event`, the `_escapeJSON` of the
message and the quote that closes it. -/
def json_event_fields (M : Env) (E : Event_T) (B : StringBuffer_T) : StringBuffer_T :=
  let B :=
    B ++ "\"event\":\x7b\"collected_sec\":".data ++ fmt_d (toLongLong E.collected.tv_sec)
      ++ ",\"collected_usec\":".data ++ fmt_d (toLongLong E.collected.tv_usec)
      ++ ",\"service\":\"".data
      ++ (if E.id = M.h.Event_Instance then "Monit".data else fmt_s E.source.name)
      ++ "\",\"type\":".data ++ fmt_d E.type
      ++ ",\"id\":".data ++ fmt_d E.id
      ++ ",\"state\":".data ++ fmt_d E.state
      ++ ",\"action\":".data ++ fmt_d (M.x.Event_get_action E)
      ++ ",\"message\":\"".data
  let B := _escapeJSON B E.message
  B ++ "\"".data

/-- The function `json_status_event(E, B)`; the test `if (E->source->token)` is a test
of the pointer against NULL. -/
def json_status_event (M : Env) (E : Event_T) (B : StringBuffer_T) : StringBuffer_T :=
  let B := json_event_fields M E B
  let B :=
    match E.source.token with
    | some token => B ++ ",\"token\":\"".data ++ cstring token ++ "\"".data
    | none => B
  B ++ "\x7d".data

/-- The loop over `servicelist_conf` in `status_json` (the variable `comma` is passed
along). -/
def json_services (M : Env) (V : Int) : List Service_T → StringBuffer_T → Bool → StringBuffer_T
  | [], B, _ => B
  | S :: next_conf, B, comma =>
    let B := if comma then B ++ ",".data else B
    json_services M V next_conf (json_status_service M S B V) true

/-- The loop over `servicegrouplist` in `status_json` (the variable `comma` is passed
along). -/
def json_servicegroups : List ServiceGroup_T → StringBuffer_T → Bool → StringBuffer_T
  | [], B, _ => B
  | SG :: next, B, comma =>
    let B := if comma then B ++ ",".data else B
    json_servicegroups next (json_status_servicegroup SG B) true

/-- The function `status_json(B, E, V, myip)`; `E` is `none` for a NULL event. -/
def status_json (M : Env) (B : StringBuffer_T) (E : Option Event_T) (V : Int)
    (myip : Option CStr) : StringBuffer_T :=
  let comma := false
  let B := json_document_head M B V myip
  let B := if V = 2 then B ++ "\"services\":\x7b".data else B
  let B := B ++ "\"service\":[".data
  let B := json_services M V M.servicelist_conf B comma
  let B := B ++ "]".data
  let B :=
    if V = 2 then
      let B := B ++ "\x7d,\"servicegroups\":\x7b\"servicegroup\":[".data
      let comma := false
      let B := json_servicegroups M.servicegrouplist B comma
      B ++ "]\x7d".data
    else B
  let B :=
    match E with
    | some E => json_status_event M E B
    | none => B
  json_document_foot B


/-! ## A recogniser for JSON texts (RFC 8259) -/

/-- The structure a value is nested in: an object or an array. -/
inductive Ctx where
  | obj
  | arr

/-- Progress through a number: after the minus sign, after a leading zero, inside the
integer digits, after the point, inside the fraction digits, after the exponent mark,
after the exponent sign, inside the exponent digits. -/
inductive NumState where
  | minus
  | zero
  | int
  | dot
  | frac
  | exp
  | expSign
  | expDigits

/-- State of the recogniser between two characters. -/
inductive JState where
  | value
  | valueOrEnd
  | keyOrEnd
  | key
  | colon
  | after
  | str (isKey : Bool)
  | strEsc (isKey : Bool)
  | strHex (isKey : Bool) (remaining : Nat)
  | num (s : NumState)
  | lit (rest : List Char)

/-- Whether `c` is JSON whitespace. -/
def isWs (c : Char) : Bool :=
  c = ' ' || c = Char.ofNat 9 || c = Char.ofNat 10 || c = Char.ofNat 13

/-- Whether `c` is a decimal digit. -/
def isDigit (c : Char) : Bool := decide (48 ≤ c.toNat ∧ c.toNat ≤ 57)

/-- Whether a number may end in this state. -/
def NumState.complete : NumState → Bool
  | NumState.zero => true
  | NumState.int => true
  | NumState.frac => true
  | NumState.expDigits => true
  | _ => false

/-- A character read where a value may start. -/
def valueStep (stack : List Ctx) (c : Char) : Option (JState × List Ctx) :=
  if c = '\x7b' then some (JState.keyOrEnd, Ctx.obj :: stack)
  else if c = '[' then some (JState.valueOrEnd, Ctx.arr :: stack)
  else if c = DQUOTE then some (JState.str false, stack)
  else if c = '-' then some (JState.num NumState.minus, stack)
  else if c = '0' then some (JState.num NumState.zero, stack)
  else if isDigit c then some (JState.num NumState.int, stack)
  else if c = 't' then some (JState.lit ['r', 'u', 'e'], stack)
  else if c = 'f' then some (JState.lit ['a', 'l', 's', 'e'], stack)
  else if c = 'n' then some (JState.lit ['u', 'l', 'l'], stack)
  else none

/-- A character read after a complete value: a separator or the closer of the
enclosing structure. -/
def afterStep (stack : List Ctx) (c : Char) : Option (JState × List Ctx) :=
  if isWs c then some (JState.after, stack)
  else if c = ',' then
    match stack with
    | Ctx.obj :: _ => some (JState.key, stack)
    | Ctx.arr :: _ => some (JState.value, stack)
    | [] => none
  else if c = '\x7d' then
    match stack with
    | Ctx.obj :: outer => some (JState.after, outer)
    | _ => none
  else if c = ']' then
    match stack with
    | Ctx.arr :: outer => some (JState.after, outer)
    | _ => none
  else none

/-- A character read inside a number; a character that cannot continue a complete
number ends it and is read as the character after a value. -/
def numStep (s : NumState) (stack : List Ctx) (c : Char) : Option (JState × List Ctx) :=
  let next : Option NumState :=
    match s with
    | NumState.minus =>
      if c = '0' then some NumState.zero else if isDigit c then some NumState.int else none
    | NumState.zero =>
      if c = '.' then some NumState.dot
      else if c = 'e' ∨ c = 'E' then some NumState.exp else none
    | NumState.int =>
      if isDigit c then some NumState.int
      else if c = '.' then some NumState.dot
      else if c = 'e' ∨ c = 'E' then some NumState.exp else none
    | NumState.dot => if isDigit c then some NumState.frac else none
    | NumState.frac =>
      if isDigit c then some NumState.frac
      else if c = 'e' ∨ c = 'E' then some NumState.exp else none
    | NumState.exp =>
      if c = '+' ∨ c = '-' then some NumState.expSign
      else if isDigit c then some NumState.expDigits else none
    | NumState.expSign => if isDigit c then some NumState.expDigits else none
    | NumState.expDigits => if isDigit c then some NumState.expDigits else none
  match next with
  | some s2 => some (JState.num s2, stack)
  | none => if s.complete then afterStep stack c else none

/-- One step of the recogniser. -/
def jsonStep : JState → List Ctx → Char → Option (JState × List Ctx)
  | JState.value, stack, c =>
    if isWs c then some (JState.value, stack) else valueStep stack c
  | JState.valueOrEnd, stack, c =>
    if isWs c then some (JState.valueOrEnd, stack)
    else if c = ']' then
      match stack with
      | Ctx.arr :: outer => some (JState.after, outer)
      | _ => none
    else valueStep stack c
  | JState.keyOrEnd, stack, c =>
    if isWs c then some (JState.keyOrEnd, stack)
    else if c = DQUOTE then some (JState.str true, stack)
    else if c = '\x7d' then
      match stack with
      | Ctx.obj :: outer => some (JState.after, outer)
      | _ => none
    else none
  | JState.key, stack, c =>
    if isWs c then some (JState.key, stack)
    else if c = DQUOTE then some (JState.str true, stack)
    else none
  | JState.colon, stack, c =>
    if isWs c then some (JState.colon, stack)
    else if c = ':' then some (JState.value, stack)
    else none
  | JState.after, stack, c => afterStep stack c
  | JState.str isKey, stack, c =>
    if c = DQUOTE then some (if isKey then JState.colon else JState.after, stack)
    else if c = BACKSLASH then some (JState.strEsc isKey, stack)
    else if c.toNat < 0x20 then none
    else some (JState.str isKey, stack)
  | JState.strEsc isKey, stack, c =>
    if c = 'u' then some (JState.strHex isKey 4, stack)
    else if (simpleEscape c).isSome then some (JState.str isKey, stack)
    else none
  | JState.strHex isKey remaining, stack, c =>
    if (hexVal c).isSome then
      some (if remaining ≤ 1 then JState.str isKey else JState.strHex isKey (remaining - 1), stack)
    else none
  | JState.num s, stack, c => numStep s stack c
  | JState.lit rest, stack, c =>
    match rest with
    | [] => afterStep stack c
    | d :: rest2 => if c = d then some (JState.lit rest2, stack) else none

/-- Runs the recogniser; at the end of the text a value must be complete and every
object and array closed. -/
def jsonRun : JState → List Ctx → List Char → Bool
  | JState.after, [], [] => true
  | JState.num s, [], [] => s.complete
  | JState.lit [], [], [] => true
  | _, _, [] => false
  | st, stack, c :: cs =>
    match jsonStep st stack c with
    | some (st2, stack2) => jsonRun st2 stack2 cs
    | none => false

/-- Whether the text is one well-formed JSON value: braces and brackets balanced,
every object a comma-separated sequence of `"key":value` members, every array a
comma-separated sequence of values. -/
def jsonWellFormed (text : List Char) : Bool :=
  jsonRun JState.value [] text


/-! ## Lists of entries -/

/-- Entries separated by single commas, with no comma before the first entry or after
the last one; no entry gives the empty text. -/
def commaSeparated : List (List Char) → List Char
  | [] => []
  | [x] => x
  | x :: y :: rest => x ++ ",".data ++ commaSeparated (y :: rest)

/-- A name between double quotes, as the conversion `"%s"` within quotes prints it. -/
def quoted (name : CStr) : List Char :=
  "\"".data ++ cstring name ++ "\"".data

/-! ## A concrete snapshot -/

/-- Header constants of a concrete build. -/
def demoHeader : Monit_h where
  VERSION := "5.26.0".data
  HAVE_CPU_WAIT := true
  Httpd_Net := 1
  Httpd_Unix := 2
  Httpd_Ssl := 4
  Run_ProcessEngineEnabled := 8
  Every_Cycle := 0
  Connection_Ok := 1
  Event_Instance := 65536
  Service_Type_value := fun t =>
    match t with
    | Service_Type.Service_Filesystem => 0
    | Service_Type.Service_Directory => 1
    | Service_Type.Service_File => 2
    | Service_Type.Service_Process => 3
    | Service_Type.Service_Host => 4
    | Service_Type.Service_System => 5
    | Service_Type.Service_Fifo => 6
    | Service_Type.Service_Program => 7
    | Service_Type.Service_Net => 8
  checksumnames := fun i => if i = 1 then "MD5".data else "SHA1".data
  icmpnames := fun i => if i = 8 then "Ping".data else "Unknown".data

/-- External functions of a concrete build. -/
def demoExtern : Extern where
  Util_hasServiceStatus := fun S => decide (S.monitor % 2 = 1 ∧ S.error = 0)
  Util_portRequestDescription := fun _ => "/index.html".data
  Util_portTypeDescription := fun _ => "TCP".data
  Event_get_action := fun E => E.state + 1
  ProcessTree_getProcessUptime_getpid := 4242

/-- A concrete `Run`: network listener, no credentials. -/
def demoRun : Run_T where
  id := "b1946ac9".data
  incarnation := 1700000000
  polltime := 30
  startdelay := 0
  system_name := some "host.example".data
  files_control := some "/etc/monitrc".data
  httpd_flags := 1
  httpd_socket_net_address := none
  httpd_socket_net_port := 2812
  httpd_socket_unix_path := none
  mmonitcredentials := none
  flags := 8

/-- A concrete `systeminfo`. -/
def demoSysteminfo : SystemInfo_T where
  uname_sysname := "Linux".data
  uname_release := "6.1.0".data
  uname_version := "#1 SMP".data
  uname_machine := "x86_64".data
  cpus := 4
  mem_max := 8589934592
  swap_max := 1536
  loadavg_0 := ⟨false, 5, -2⟩
  loadavg_1 := ⟨false, 1, -1⟩
  loadavg_2 := ⟨false, 0, 0⟩
  total_cpu_user_percent := ⟨false, 25, -1⟩
  total_cpu_syst_percent := ⟨false, 3, -1⟩
  total_cpu_wait_percent := ⟨false, 0, 0⟩
  total_mem_percent := ⟨false, 133, -2⟩
  total_mem := 3221225472
  total_swap_percent := ⟨false, 0, 0⟩
  total_swap := 0

/-- A concrete snapshot with no service and no service group. -/
def demoEnv : Env where
  h := demoHeader
  x := demoExtern
  Run := demoRun
  systeminfo := demoSysteminfo
  servicelist_conf := []
  servicegrouplist := []

/-- A concrete `priv` record. -/
def demoInfo : Info where
  file := ⟨33188, 0, 0, 1700000001, 12345, "d41d8cd9".data⟩
  directory := ⟨16877, 0, 0, 1700000002⟩
  fifo := ⟨4480, 0, 0, 1700000003⟩
  filesystem := ⟨16832, 0, 0, 4096, ⟨false, 101, -1⟩, 1000000, 4096, 2000000, 65536,
    ⟨false, 1, -2⟩, 777⟩
  net_stats := ⟨1, 1000000000, 1, 10, 20, 30, 40, 50, 60, 70, 80, 90, 100, 110, 120⟩
  process := ⟨1234, 1, 0, 0, 0, 86400, 7, 2, ⟨false, 3, -1⟩, ⟨false, 5, -1⟩, 1536, 4096,
    ⟨false, 1, -2⟩, ⟨false, 1, -1⟩⟩

/-- A concrete service of the generic kind, monitored, with the given dependency list
and action token. -/
def demoService (deps : List Dependant_T) (token : Option CStr) : Service_T where
  name := some "web".data
  type := Service_Type.Service_Host
  collected := ⟨1700000100, 999⟩
  error := 0
  error_hint := 0
  monitor := 1
  mode := 0
  onreboot := 0
  doaction := 0
  dependantlist := deps
  every_type := 0
  every_counter := 0
  every_number := 0
  every_cron := []
  inf := demoInfo
  checksum := none
  icmplist := []
  portlist := []
  socketlist := []
  program := ⟨0, 0, []⟩
  token := token

/-- A concrete event on `demoService` whose source carries the given token. -/
def demoEvent (token : Option CStr) : Event_T where
  collected := ⟨1700000300, 5⟩
  source := demoService [] token
  type := 1
  id := 32
  state := 1
  message := "connection failed".data

/-- A concrete service of the given kind and monitoring flag, otherwise as
`demoService`: no dependency, no check, no token. -/
def demoServiceOf (type : Service_Type) (monitor : Int) : Service_T :=
  { demoService [] none with type := type, monitor := monitor }

/-- The concrete snapshot `demoEnv` with the given service list and service group list. -/
def demoEnvWith (services : List Service_T) (groups : List ServiceGroup_T) : Env :=
  { demoEnv with servicelist_conf := services, servicegrouplist := groups }

/-! ## Text inside a string literal -/

/-- Reads a text placed inside a JSON string literal, after the opening quote; `pending`
tells whether the previous character was a backslash that escapes the next one. The
result is `none` when a double-quote that is not escaped closes the literal inside the
text, and otherwise `some pending`, where `pending` tells whether the text ends in a
backslash that would escape the character after it (the closing quote). -/
def scanLiteral : Bool → List Char → Option Bool
  | pending, [] => some pending
  | true, _ :: cs => scanLiteral false cs
  | false, c :: cs =>
    if c = DQUOTE then none
    else if c = BACKSLASH then scanLiteral true cs
    else scanLiteral false cs

/-! ## Megabytes -/

/-- Blocks to megabytes in the words of the specification, `blocks * block_size /
1048576`, as an exact value. -/
def megabytesExact (blocks block_size : Nat) : Dbl :=
  ⟨false, blocks * block_size, -20⟩

/-! ## Backslash runs -/

/-- The length of the maximal run of backslashes at the end of a text. -/
def trailingBackslashes (text : List Char) : Nat :=
  (text.reverse.takeWhile (fun c => decide (c = BACKSLASH))).length

/-! ## Octal digits -/

/-- The number a string of octal digits denotes. -/
def octalValue (digits : List Char) : Nat :=
  digits.foldl (fun acc c => acc * 8 + (c.toNat - 48)) 0

/-- The `mode` member that `json_status_service` reads for a service of type file,
directory, fifo or filesystem: the one of the member of the union `S->inf->priv` that the
type selects. -/
def permissionMode (S : Service_T) : Int :=
  match S.type with
  | Service_Type.Service_File => S.inf.file.mode
  | Service_Type.Service_Directory => S.inf.directory.mode
  | Service_Type.Service_Fifo => S.inf.fifo.mode
  | _ => S.inf.filesystem.mode

/-! ## Listener configurations -/

/-- The concrete snapshot `demoEnv` with the given listener flags and central-collector
credentials. -/
def demoEnvListener (flags : Nat) (credentials : Option Auth_T) : Env :=
  { demoEnv with Run := { demoRun with httpd_flags := flags, mmonitcredentials := credentials } }

/-! ## One decimal -/

/-- The quotient `num / den` in decimal with one digit after the point, rounded to the
nearest tenth, ties to even. -/
def oneDecimal (num den : Nat) : List Char :=
  Nat.toDigits 10 (roundHalfEven (num * 10) den / 10)
    ++ '.' :: Nat.toDigits 10 (roundHalfEven (num * 10) den % 10)

/-! ## Concrete services with checks and block counts -/

/-- A concrete monitored filesystem service with the given block counts and block size,
otherwise as `demoService`. -/
def demoFilesystem (space_total f_bsize f_blocks : Int) : Service_T :=
  { demoServiceOf Service_Type.Service_Filesystem 1 with
    inf := { demoInfo with
      filesystem := { demoInfo.filesystem with
        space_total := space_total, f_bsize := f_bsize, f_blocks := f_blocks } } }

/-- A concrete monitored service of the generic kind with two ICMP checks, two
network-port checks and one local-socket check. -/
def demoServiceWithChecks : Service_T :=
  { demoService [] none with
    icmplist := [⟨8, 1, ⟨false, 5, 0⟩⟩, ⟨0, 0, ⟨false, 7, 0⟩⟩]
    portlist := [⟨some "a.example".data, 80, none, some "HTTP".data, 1, ⟨false, 250, 0⟩⟩,
      ⟨none, 443, none, none, 0, ⟨false, 1, 0⟩⟩]
    socketlist := [⟨none, 0, some "/run/x.sock".data, some "DEFAULT".data, 1, ⟨false, 3, 0⟩⟩] }

/-! # Theorems -/

/-! ## Helper lemmas: C strings and the escaper -/

theorem backslash_ne_nul : BACKSLASH ≠ NUL := by decide

theorem dquote_ne_nul : DQUOTE ≠ NUL := by decide

theorem dquote_ne_backslash : DQUOTE ≠ BACKSLASH := by decide

theorem cstring_cons_nul (buf : CStr) : cstring (NUL :: buf) = [] := by
  simp [cstring]

theorem cstring_cons_of_ne (c : Char) (buf : CStr) (h : c ≠ NUL) :
    cstring (c :: buf) = c :: cstring buf := by
  simp [cstring, List.takeWhile_cons, h]

theorem cstring_of_no_nul (s : List Char) (h : ∀ c ∈ s, c ≠ NUL) : cstring s = s := by
  induction s with
  | nil => rfl
  | cons c s ih =>
    rw [cstring_cons_of_ne c s (h c (List.mem_cons_self c s))]
    rw [ih (fun d hd => h d (List.mem_cons_of_mem c hd))]

theorem escapeJSON_eq (B : StringBuffer_T) (buf : CStr) :
    _escapeJSON B buf = B ++ (cstring buf).flatMap escapeRule := by
  induction buf generalizing B with
  | nil => simp [_escapeJSON, cstring]
  | cons c buf ih =>
    unfold _escapeJSON
    by_cases h0 : c = NUL
    · subst h0
      simp [cstring_cons_nul]
    · rw [cstring_cons_of_ne c buf h0]
      by_cases h1 : c = BACKSLASH
      · simp [h1, ih, escapeRule, backslash_ne_nul]
      · by_cases h2 : c = DQUOTE
        · simp [h2, ih, escapeRule, dquote_ne_nul, dquote_ne_backslash]
        · simp [h0, h1, h2, ih, escapeRule]

theorem flatMap_escapeRule_plain (s : List Char)
    (hb : BACKSLASH ∉ s) (hq : DQUOTE ∉ s) : s.flatMap escapeRule = s := by
  induction s with
  | nil => rfl
  | cons c s ih =>
    have hb1 : c ≠ BACKSLASH := fun h => hb (h ▸ List.mem_cons_self c s)
    have hq1 : c ≠ DQUOTE := fun h => hq (h ▸ List.mem_cons_self c s)
    have hb2 : BACKSLASH ∉ s := fun h => hb (List.mem_cons_of_mem c h)
    have hq2 : DQUOTE ∉ s := fun h => hq (List.mem_cons_of_mem c h)
    simp [List.flatMap_cons, escapeRule, hb1, hq1, ih hb2 hq2]

theorem strRun_cons (st : StrState) (c : Char) (cs : List Char) :
    strRun st (c :: cs) =
      match strStep st c with
      | none => none
      | some (st2, out) => (strRun st2 cs).map (fun r => out ++ r) := by
  cases st <;> rfl

theorem strStep_normal_backslash :
    strStep StrState.normal BACKSLASH = some (StrState.escaped, []) := by decide

theorem strStep_escaped_backslash :
    strStep StrState.escaped BACKSLASH = some (StrState.normal, [BACKSLASH]) := by decide

theorem strStep_escaped_dquote :
    strStep StrState.escaped DQUOTE = some (StrState.normal, [DQUOTE]) := by decide

theorem strStep_normal_plain (c : Char) (h1 : c ≠ BACKSLASH) (h2 : c ≠ DQUOTE)
    (h3 : 0x20 ≤ c.toNat) : strStep StrState.normal c = some (StrState.normal, [c]) := by
  simp [strStep, h1, h2, Nat.not_lt.mpr h3]

theorem strRun_escape (s : List Char) (h : ∀ c ∈ s, 0x20 ≤ c.toNat) :
    strRun StrState.normal (s.flatMap escapeRule) = some s := by
  induction s with
  | nil => rfl
  | cons c s ih =>
    have ih2 := ih (fun d hd => h d (List.mem_cons_of_mem c hd))
    have hc : 0x20 ≤ c.toNat := h c (List.mem_cons_self c s)
    by_cases h1 : c = BACKSLASH
    · simp [List.flatMap_cons, escapeRule, h1, strRun_cons, strStep_normal_backslash,
        strStep_escaped_backslash, ih2]
    · by_cases h2 : c = DQUOTE
      · simp [List.flatMap_cons, escapeRule, h2, dquote_ne_backslash, strRun_cons,
          strStep_normal_backslash, strStep_escaped_dquote, ih2]
      · simp [List.flatMap_cons, escapeRule, h1, h2, strRun_cons,
          strStep_normal_plain c h1 h2 hc, ih2]

theorem no_nul_of_ge_space (s : List Char) (h : ∀ c ∈ s, 0x20 ≤ c.toNat) :
    ∀ c ∈ s, c ≠ NUL := by
  intro c hc hn
  have h2 := h c hc
  rw [hn] at h2
  exact absurd h2 (by decide)

/-! ## The text escaper -/

/-- C1: for every input string, `_escapeJSON` appends to the buffer exactly the
concatenation, character by character in input order, of the fragments of the escaping
rule: backslash-backslash for a backslash, backslash-quote for a double-quote, and the
character itself for every other character. The input string is the C string `buf`
points to, that is, the characters before its terminator. -/
theorem escapeJSON_appends_rule (B : StringBuffer_T) (buf : CStr) :
    _escapeJSON B buf = B ++ (cstring buf).flatMap escapeRule :=
  escapeJSON_eq B buf

/-- C2, as stated, fails: the string made of a double-quote and a line feed contains a
double-quote, and the output of `_escapeJSON` for it is rejected by the decoder, because
the line feed is passed through unescaped. -/
theorem escapeJSON_roundtrip_fails_with_control_character :
    DQUOTE ∈ cstring [DQUOTE, Char.ofNat 10]
      ∧ jsonStringDecode (_escapeJSON [] [DQUOTE, Char.ofNat 10])
          ≠ some (cstring [DQUOTE, Char.ofNat 10]) := by
  decide

/-- C2, amended: for every string without control characters (every character is 0x20
or above), decoding the output of `_escapeJSON` as the body of a JSON string literal
gives back the string exactly. -/
theorem escapeJSON_roundtrip (s : List Char) (h : ∀ c ∈ s, 0x20 ≤ c.toNat) :
    jsonStringDecode (_escapeJSON [] s) = some s := by
  rw [escapeJSON_eq, cstring_of_no_nul s (no_nul_of_ge_space s h)]
  exact strRun_escape s h

/-- Witness of C2 amended: a string with both a double-quote and a backslash. -/
theorem escapeJSON_roundtrip_witness :
    jsonStringDecode (_escapeJSON [] ['a', DQUOTE, 'b', BACKSLASH, 'c'])
      = some ['a', DQUOTE, 'b', BACKSLASH, 'c'] :=
  escapeJSON_roundtrip ['a', DQUOTE, 'b', BACKSLASH, 'c'] (by decide)

/-- C3: for every string that contains neither a backslash nor a double-quote, the
empty string included, `_escapeJSON` appends the string unchanged; the function is
total, so the call returns for every input. -/
theorem escapeJSON_plain_unchanged (B : StringBuffer_T) (buf : CStr)
    (hb : BACKSLASH ∉ cstring buf) (hq : DQUOTE ∉ cstring buf) :
    _escapeJSON B buf = B ++ cstring buf := by
  rw [escapeJSON_eq, flatMap_escapeRule_plain (cstring buf) hb hq]

/-- Witness of C3: the empty string and a plain word, each appended unchanged. -/
theorem escapeJSON_plain_unchanged_witness :
    _escapeJSON ['x'] [] = ['x'] ++ cstring []
      ∧ _escapeJSON [] ['o', 'k', ' ', 'n', 'o', 'w'] = [] ++ cstring ['o', 'k', ' ', 'n', 'o', 'w'] :=
  ⟨escapeJSON_plain_unchanged ['x'] [] (by decide) (by decide),
   escapeJSON_plain_unchanged [] ['o', 'k', ' ', 'n', 'o', 'w'] (by decide) (by decide)⟩


/-! ## Bytes to kilobytes -/

theorem log2Aux_le (fuel : Nat) : ∀ (n k : Nat), n < 2 ^ (k + 1) → log2Aux fuel n ≤ k := by
  induction fuel with
  | zero => intro n k _; simp [log2Aux]
  | succ f ih =>
    intro n k h
    unfold log2Aux
    by_cases h2 : n < 2
    · simp [h2]
    · simp only [h2, if_false]
      cases k with
      | zero => simp at h; omega
      | succ k =>
        have h3 : n / 2 < 2 ^ (k + 1) := by
          rw [Nat.div_lt_iff_lt_mul (by decide)]
          rw [Nat.pow_succ] at h
          exact h
        have := ih (n / 2) k h3
        omega

theorem ilog2_le (n k : Nat) (h : n < 2 ^ (k + 1)) : ilog2 n ≤ k :=
  log2Aux_le n n k h

theorem roundHalfEven_exact (m d : Nat) (hd : 0 < d) : roundHalfEven (m * d) d = m := by
  unfold roundHalfEven
  simp [Nat.mul_div_cancel m hd, Nat.mul_mod_left]
  omega

theorem commaSeparated_cons (x : List Char) (xs : List (List Char)) :
    commaSeparated (x :: xs) = x ++ xs.flatMap (fun y => ",".data ++ y) := by
  induction xs generalizing x with
  | nil => simp [commaSeparated]
  | cons y ys ih => simp [commaSeparated, ih y, List.flatMap_cons]

theorem json_dependants_true (ds : List Dependant_T) (B : StringBuffer_T) :
    json_dependants ds B true
      = B ++ ((ds.filterMap (fun d => d.dependant)).map quoted).flatMap
          (fun y => ",".data ++ y) := by
  induction ds generalizing B with
  | nil => simp [json_dependants]
  | cons d ds ih =>
    cases hd : d.dependant with
    | none => simp [json_dependants, hd, ih]
    | some name => simp [json_dependants, hd, ih, quoted, List.flatMap_cons]

theorem json_dependants_false (ds : List Dependant_T) (B : StringBuffer_T) :
    json_dependants ds B false
      = B ++ commaSeparated ((ds.filterMap (fun d => d.dependant)).map quoted) := by
  induction ds generalizing B with
  | nil => simp [json_dependants, commaSeparated]
  | cons d ds ih =>
    cases hd : d.dependant with
    | none => simp [json_dependants, hd, ih]
    | some name =>
      simp [json_dependants, hd, json_dependants_true, commaSeparated_cons, quoted]

theorem json_icmp_append (M : Env) (i : Icmp_T) (B : StringBuffer_T) :
    json_icmp M i B = B ++ json_icmp M i [] := by
  simp [json_icmp]

theorem json_port_append (M : Env) (p : Port_T) (B : StringBuffer_T) :
    json_port M p B = B ++ json_port M p [] := by
  simp [json_port, escapeJSON_eq]

theorem json_unix_append (M : Env) (p : Port_T) (B : StringBuffer_T) :
    json_unix M p B = B ++ json_unix M p [] := by
  simp [json_unix]

theorem json_icmp_loop_true (M : Env) (l : List Icmp_T) (B : StringBuffer_T) :
    json_icmp_loop M l B true
      = B ++ (l.map (fun i => json_icmp M i [])).flatMap (fun y => ",".data ++ y) := by
  induction l generalizing B with
  | nil => simp [json_icmp_loop]
  | cons i l ih =>
    simp only [json_icmp_loop, if_true, ih]
    rw [json_icmp_append]
    simp [List.flatMap_cons]

theorem json_icmp_loop_false (M : Env) (l : List Icmp_T) (B : StringBuffer_T) :
    json_icmp_loop M l B false = B ++ commaSeparated (l.map (fun i => json_icmp M i [])) := by
  cases l with
  | nil => simp [json_icmp_loop, commaSeparated]
  | cons i l =>
    simp only [json_icmp_loop, json_icmp_loop_true, List.map_cons, commaSeparated_cons]
    rw [json_icmp_append]
    simp

theorem json_port_loop_true (M : Env) (l : List Port_T) (B : StringBuffer_T) :
    json_port_loop M l B true
      = B ++ (l.map (fun p => json_port M p [])).flatMap (fun y => ",".data ++ y) := by
  induction l generalizing B with
  | nil => simp [json_port_loop]
  | cons p l ih =>
    simp only [json_port_loop, if_true, ih]
    rw [json_port_append]
    simp [List.flatMap_cons]

theorem json_port_loop_false (M : Env) (l : List Port_T) (B : StringBuffer_T) :
    json_port_loop M l B false = B ++ commaSeparated (l.map (fun p => json_port M p [])) := by
  cases l with
  | nil => simp [json_port_loop, commaSeparated]
  | cons p l =>
    simp only [json_port_loop, json_port_loop_true, List.map_cons, commaSeparated_cons]
    rw [json_port_append]
    simp

theorem json_unix_loop_true (M : Env) (l : List Port_T) (B : StringBuffer_T) :
    json_unix_loop M l B true
      = B ++ (l.map (fun p => json_unix M p [])).flatMap (fun y => ",".data ++ y) := by
  induction l generalizing B with
  | nil => simp [json_unix_loop]
  | cons p l ih =>
    simp only [json_unix_loop, if_true, ih]
    rw [json_unix_append]
    simp [List.flatMap_cons]

theorem json_unix_loop_false (M : Env) (l : List Port_T) (B : StringBuffer_T) :
    json_unix_loop M l B false = B ++ commaSeparated (l.map (fun p => json_unix M p [])) := by
  cases l with
  | nil => simp [json_unix_loop, commaSeparated]
  | cons p l =>
    simp only [json_unix_loop, json_unix_loop_true, List.map_cons, commaSeparated_cons]
    rw [json_unix_append]
    simp

/-! ## Helper lemmas: the blocks of `json_status_service` extend the buffer -/

theorem json_service_header_append (M : Env) (S : Service_T) (B : StringBuffer_T) (V : Int) :
    json_service_header M S B V = B ++ json_service_header M S [] V := by
  unfold json_service_header
  split <;> simp only [List.append_assoc, List.nil_append]

theorem json_service_common_append (S : Service_T) (B : StringBuffer_T) :
    json_service_common S B = B ++ json_service_common S [] := by
  simp only [json_service_common, List.append_assoc, List.nil_append]

theorem json_service_every_append (M : Env) (S : Service_T) (B : StringBuffer_T) :
    json_service_every M S B = B ++ json_service_every M S [] := by
  unfold json_service_every
  split_ifs <;> simp only [List.append_assoc, List.nil_append, List.append_nil]

theorem json_service_info_append (M : Env) (S : Service_T) (B : StringBuffer_T) :
    json_service_info M S B = B ++ json_service_info M S [] := by
  unfold json_service_info
  split <;> (try dsimp only) <;> (try split) <;>
    simp only [List.append_assoc, List.nil_append, List.append_nil]

theorem json_service_system_append (M : Env) (S : Service_T) (B : StringBuffer_T) :
    json_service_system M S B = B ++ json_service_system M S [] := by
  unfold json_service_system
  split <;> simp only [List.append_assoc, List.nil_append, List.append_nil]

theorem json_service_program_append (S : Service_T) (B : StringBuffer_T) :
    json_service_program S B = B ++ json_service_program S [] := by
  unfold json_service_program
  split <;> simp only [escapeJSON_eq, List.append_assoc, List.nil_append, List.append_nil]

theorem json_event_fields_append (M : Env) (E : Event_T) (B : StringBuffer_T) :
    json_event_fields M E B = B ++ json_event_fields M E [] := by
  simp only [json_event_fields, escapeJSON_eq, List.append_assoc, List.nil_append]

/-- The text `json_status_service` appends, block by block. -/
theorem json_status_service_eq (M : Env) (S : Service_T) (B : StringBuffer_T) (V : Int) :
    json_status_service M S B V
      = B ++ json_service_header M S [] V ++ json_service_common S []
          ++ commaSeparated ((S.dependantlist.filterMap (fun d => d.dependant)).map quoted)
          ++ "]".data ++ json_service_every M S []
          ++ (if M.x.Util_hasServiceStatus S then
                json_service_info M S [] ++ ",\"icmp\":[".data
                  ++ commaSeparated (S.icmplist.map (fun i => json_icmp M i []))
                  ++ "],\"port\":[".data
                  ++ commaSeparated (S.portlist.map (fun p => json_port M p []))
                  ++ "],\"unix\":[".data
                  ++ commaSeparated (S.socketlist.map (fun p => json_unix M p []))
                  ++ "]".data ++ json_service_system M S [] ++ json_service_program S []
              else [])
          ++ "\x7d".data := by
  unfold json_status_service
  simp only [json_dependants_false, json_icmp_loop_false, json_port_loop_false,
    json_unix_loop_false]
  cases hs : M.x.Util_hasServiceStatus S with
  | true =>
    simp only [if_true]
    conv_lhs =>
      rw [json_service_program_append, json_service_system_append, json_service_info_append,
        json_service_every_append, json_service_common_append, json_service_header_append]
    simp only [List.append_assoc, List.cons_append, List.nil_append]
  | false =>
    simp only [Bool.false_eq_true, if_false]
    conv_lhs =>
      rw [json_service_every_append, json_service_common_append, json_service_header_append]
    simp only [List.append_assoc, List.cons_append, List.nil_append, List.append_nil]


theorem fmt_f_minusOne : fmt_f 6 Dbl.minusOne = "-1.000000".data := by decide

theorem json_service_header_v1 (M : Env) (S : Service_T) :
    json_service_header M S [] 1
      = "\x7b\"@type\":".data ++ fmt_d (M.h.Service_Type_value S.type)
          ++ ",\"name\":\"".data ++ fmt_s_or_empty S.name ++ "\",".data := by
  unfold json_service_header
  rw [if_neg (by decide)]
  simp only [List.nil_append]

theorem json_service_header_v2 (M : Env) (S : Service_T) :
    json_service_header M S [] 2
      = "\x7b\"@name\":\"".data ++ fmt_s_or_empty S.name
          ++ "\",\"type\":".data ++ fmt_d (M.h.Service_Type_value S.type) ++ ",".data := by
  unfold json_service_header
  rw [if_pos rfl]
  simp only [List.nil_append]

theorem json_status_service_after_header (M : Env) (S : Service_T) :
    ∃ fields : List Char, ∀ (B : StringBuffer_T) (V : Int),
      json_status_service M S B V = B ++ json_service_header M S [] V ++ fields := by
  refine ⟨json_service_common S []
      ++ commaSeparated ((S.dependantlist.filterMap (fun d => d.dependant)).map quoted)
      ++ "]".data ++ json_service_every M S []
      ++ (if M.x.Util_hasServiceStatus S then
            json_service_info M S [] ++ ",\"icmp\":[".data
              ++ commaSeparated (S.icmplist.map (fun i => json_icmp M i []))
              ++ "],\"port\":[".data
              ++ commaSeparated (S.portlist.map (fun p => json_port M p []))
              ++ "],\"unix\":[".data
              ++ commaSeparated (S.socketlist.map (fun p => json_unix M p []))
              ++ "]".data ++ json_service_system M S [] ++ json_service_program S []
          else [])
      ++ "\x7d".data, ?_⟩
  intro B V
  rw [json_status_service_eq]
  simp only [List.append_assoc]

/-! ## Helper lemmas: where the event is placed -/

theorem json_status_event_append (M : Env) (E : Event_T) (B : StringBuffer_T) :
    json_status_event M E B = B ++ json_status_event M E [] := by
  unfold json_status_event
  rw [json_event_fields_append M E B]
  cases E.source.token <;> simp only [List.append_assoc, List.nil_append]

/-- The text `json_status_event` appends starts with the key `"event"`: no comma
precedes it. -/
theorem json_status_event_starts_with_key (M : Env) (E : Event_T) (B : StringBuffer_T) :
    json_status_event M E B
      = B ++ "\"event\":\x7b".data ++ (json_status_event M E []).drop 9 := by
  rw [json_status_event_append M E B, List.append_assoc]
  congr 1
  simp only [json_status_event, json_event_fields, escapeJSON_eq]
  cases E.source.token <;>
    simp only [List.append_assoc, List.nil_append, List.cons_append,
      List.drop_succ_cons, List.drop_zero]

/-- With an event, for every snapshot, `status_json` in version 1 appends the event right
after the bracket that closes the service array, and in version 2 right after the brace
that closes `servicegroups`; in both the next member starts without a comma. -/
theorem status_json_event_follows_without_comma (M : Env) (B : StringBuffer_T)
    (E : Event_T) (myip : Option CStr) :
    status_json M B (some E) 1 myip
        = json_services M 1 M.servicelist_conf
            (json_document_head M B 1 myip ++ "\"service\":[".data) false
          ++ "]".data ++ "\"event\":\x7b".data ++ (json_status_event M E []).drop 9 ++ "\x7d\x7d".data
      ∧ status_json M B (some E) 2 myip
        = json_servicegroups M.servicegrouplist
            (json_services M 2 M.servicelist_conf
                (json_document_head M B 2 myip ++ "\"services\":\x7b".data ++ "\"service\":[".data) false
              ++ "]".data ++ "\x7d,\"servicegroups\":\x7b\"servicegroup\":[".data) false
          ++ "]\x7d".data ++ "\"event\":\x7b".data ++ (json_status_event M E []).drop 9 ++ "\x7d\x7d".data := by
  constructor
  · have h12 : ¬ ((1 : Int) = 2) := by decide
    simp only [status_json, json_document_foot, h12, if_false]
    rw [json_status_event_starts_with_key]
  · simp only [status_json, json_document_foot, if_true]
    rw [json_status_event_starts_with_key]


/-! ## The document and the service encoder -/

set_option maxRecDepth 100000 in
/-- C4, evaluated at a snapshot with an event: for the snapshot `demoEnv` (no service, no
group) the document without an event is well-formed in both versions, and the document
with the event `demoEvent none` is not well-formed in either version, because
`status_json` appends the `"event"` member right after the closing bracket or brace of
the preceding member, without a comma. -/
theorem status_json_with_event_not_well_formed :
    jsonWellFormed (status_json demoEnv [] none 1 none) = true
      ∧ jsonWellFormed (status_json demoEnv [] none 2 none) = true
      ∧ jsonWellFormed (status_json demoEnv [] (some (demoEvent none)) 1 none) = false
      ∧ jsonWellFormed (status_json demoEnv [] (some (demoEvent none)) 2 none) = false
      ∧ (status_json demoEnv [] (some (demoEvent none)) 1 none).drop 341
          = "\"service\":[]\"event\":\x7b\"collected_sec\":1700000300,\"collected_usec\":5,\"service\":\"web\",\"type\":1,\"id\":32,\"state\":1,\"action\":2,\"message\":\"connection failed\"\x7d\x7d\x7d".data := by
  decide

/-- C5: for every service, the version 1 and the version 2 encodings consist of the
header of the version (type then name for version 1, name then type for version 2, with
the same type and the same name) followed by one and the same text. -/
theorem service_versions_differ_only_in_header (M : Env) (S : Service_T)
    (B : StringBuffer_T) :
    ∃ fields : List Char,
      json_status_service M S B 1
          = B ++ ("\x7b\"@type\":".data ++ fmt_d (M.h.Service_Type_value S.type)
                ++ ",\"name\":\"".data ++ fmt_s_or_empty S.name ++ "\",".data) ++ fields
        ∧ json_status_service M S B 2
          = B ++ ("\x7b\"@name\":\"".data ++ fmt_s_or_empty S.name
                ++ "\",\"type\":".data ++ fmt_d (M.h.Service_Type_value S.type) ++ ",".data) ++ fields := by
  obtain ⟨fields, h⟩ := json_status_service_after_header M S
  refine ⟨fields, ?_, ?_⟩
  · rw [h B 1, json_service_header_v1]
  · rw [h B 2, json_service_header_v2]

/-- C7: the object emitted for an ICMP check, for a network-port check and for a
local-socket check carries the response time `-1.000000` whenever the last result of the
check is not `Connection_Ok`, whatever the stored response value; the stored value
divided by 1000 is printed only when the result is `Connection_Ok`. -/
theorem responsetime_is_minus_one_unless_ok (M : Env) (i : Icmp_T) (p : Port_T)
    (B : StringBuffer_T) :
    json_icmp M i B
        = B ++ "\x7b\"type\":\"".data ++ cstring (M.h.icmpnames i.type) ++ "\",\"responsetime\":".data
            ++ (if i.is_available = M.h.Connection_Ok then
                  fmt_f 6 (Dbl.div i.response Dbl.c1000)
                else "-1.000000".data)
            ++ "\x7d".data
      ∧ json_port M p B
        = B ++ "\x7b\"hostname\":\"".data ++ fmt_s_or_empty p.hostname
            ++ "\",\"portnumber\":".data ++ fmt_d p.target_net_port ++ ",\"request\":\"".data
            ++ (cstring (M.x.Util_portRequestDescription p)).flatMap escapeRule
            ++ "\",\"protocol\":\"".data ++ fmt_s_or_empty p.protocol_name
            ++ "\",\"type\":\"".data ++ cstring (M.x.Util_portTypeDescription p)
            ++ "\",\"responsetime\":".data
            ++ (if p.is_available = M.h.Connection_Ok then
                  fmt_f 6 (Dbl.div p.response Dbl.c1000)
                else "-1.000000".data)
            ++ "\x7d".data
      ∧ json_unix M p B
        = B ++ "\x7b\"path\":\"".data ++ fmt_s_or_empty p.target_unix_pathname
            ++ "\",\"protocol\":\"".data ++ fmt_s_or_empty p.protocol_name
            ++ "\",\"responsetime\":".data
            ++ (if p.is_available = M.h.Connection_Ok then
                  fmt_f 6 (Dbl.div p.response Dbl.c1000)
                else "-1.000000".data)
            ++ "\x7d".data := by
  refine ⟨?_, ?_, ?_⟩
  · unfold json_icmp
    split <;> simp only [fmt_f_minusOne]
  · unfold json_port
    split <;> simp only [fmt_f_minusOne, escapeJSON_eq, List.append_assoc]
  · unfold json_unix
    split <;> simp only [fmt_f_minusOne]


set_option maxRecDepth 100000 in
/-- C8, as stated, fails: a dependency list with one element, whose name is NULL, is
encoded as the empty array, so the array has no entry for that element. -/
theorem depends_on_skips_null_name :
    (demoService [⟨none⟩] none).dependantlist.length = 1
      ∧ json_status_service demoEnv (demoService [⟨none⟩] none) [] 1
          = "\x7b\"@type\":4,\"name\":\"web\",\"collected_sec\":1700000100,\"collected_usec\":999,\"status\":0,\"status_hint\":0,\"monitor\":1,\"monitormode\":0,\"onreboot\":0,\"pendingaction\":0,\"depends_on\":[],\"icmp\":[],\"port\":[],\"unix\":[]\x7d".data := by
  decide

/-- C8, amended: for every service, the text after the opening bracket of `depends_on`
(with which the common fields end) is exactly one quoted entry for each element of the
dependency list whose name is not NULL, in list order, duplicates kept, separated by
single commas with no leading or trailing comma, followed by the closing bracket; the
empty text when there is no such element. -/
theorem depends_on_lists_non_null_names (M : Env) (S : Service_T) (B : StringBuffer_T)
    (V : Int) :
    (∃ before : List Char,
        json_service_common S (json_service_header M S B V) = before ++ ",\"depends_on\":[".data)
      ∧ ∃ rest : List Char,
        json_status_service M S B V
          = json_service_common S (json_service_header M S B V)
              ++ commaSeparated ((S.dependantlist.filterMap (fun d => d.dependant)).map quoted)
              ++ "]".data ++ rest := by
  constructor
  · refine ⟨json_service_header M S B V ++ "\"collected_sec\":".data
        ++ fmt_d (toLongLong S.collected.tv_sec)
        ++ ",\"collected_usec\":".data ++ fmt_d (toLongLong S.collected.tv_usec)
        ++ ",\"status\":".data ++ fmt_d S.error
        ++ ",\"status_hint\":".data ++ fmt_d S.error_hint
        ++ ",\"monitor\":".data ++ fmt_d S.monitor
        ++ ",\"monitormode\":".data ++ fmt_d S.mode
        ++ ",\"onreboot\":".data ++ fmt_d S.onreboot
        ++ ",\"pendingaction\":".data ++ fmt_d S.doaction, ?_⟩
    rfl
  · refine ⟨json_service_every M S []
        ++ (if M.x.Util_hasServiceStatus S then
              json_service_info M S [] ++ ",\"icmp\":[".data
                ++ commaSeparated (S.icmplist.map (fun i => json_icmp M i []))
                ++ "],\"port\":[".data
                ++ commaSeparated (S.portlist.map (fun p => json_port M p []))
                ++ "],\"unix\":[".data
                ++ commaSeparated (S.socketlist.map (fun p => json_unix M p []))
                ++ "]".data ++ json_service_system M S [] ++ json_service_program S []
            else [])
        ++ "\x7d".data, ?_⟩
    rw [json_status_service_eq, json_service_common_append S (json_service_header M S B V),
      json_service_header_append M S B V]
    simp only [List.append_assoc]

/-- Witness of C8 amended, at a list with a duplicate and a NULL name: the array is
`["a","b","a"]`. -/
theorem depends_on_lists_non_null_names_witness :
    commaSeparated
        (([⟨some ['a']⟩, ⟨none⟩, ⟨some ['b']⟩, ⟨some ['a']⟩] : List Dependant_T).filterMap
          (fun d => d.dependant) |>.map quoted)
        = "\"a\",\"b\",\"a\"".data
      ∧ ∃ rest : List Char,
        json_status_service demoEnv
            (demoService [⟨some ['a']⟩, ⟨none⟩, ⟨some ['b']⟩, ⟨some ['a']⟩] none) [] 1
          = json_service_common
                (demoService [⟨some ['a']⟩, ⟨none⟩, ⟨some ['b']⟩, ⟨some ['a']⟩] none)
                (json_service_header demoEnv
                  (demoService [⟨some ['a']⟩, ⟨none⟩, ⟨some ['b']⟩, ⟨some ['a']⟩] none) [] 1)
              ++ commaSeparated
                  (((demoService [⟨some ['a']⟩, ⟨none⟩, ⟨some ['b']⟩, ⟨some ['a']⟩]
                      none).dependantlist.filterMap (fun d => d.dependant)).map quoted)
              ++ "]".data ++ rest :=
  ⟨by decide,
   (depends_on_lists_non_null_names demoEnv
      (demoService [⟨some ['a']⟩, ⟨none⟩, ⟨some ['b']⟩, ⟨some ['a']⟩] none) [] 1).2⟩

/-! ## The event encoder -/

set_option maxRecDepth 100000 in
/-- C10, as stated, fails: an event whose source carries the empty string as token (a
pointer that is not NULL) is encoded with a `token` field, whose value is empty. -/
theorem event_with_empty_token_has_token_field :
    (demoEvent (some [])).source.token = some []
      ∧ json_status_event demoEnv (demoEvent (some [])) []
          = "\"event\":\x7b\"collected_sec\":1700000300,\"collected_usec\":5,\"service\":\"web\",\"type\":1,\"id\":32,\"state\":1,\"action\":2,\"message\":\"connection failed\",\"token\":\"\"\x7d".data := by
  decide

/-- C10, amended: for every event, `json_status_event` emits the event fields up to the
message, then a `token` field if and only if the token pointer of the source is not
NULL, with exactly the token as value (also when the token is the empty string), then
the closing brace; a NULL token gives no `token` field. -/
theorem event_token_iff_not_null (M : Env) (E : Event_T) (B : StringBuffer_T) :
    json_status_event M E B
      = json_event_fields M E B
          ++ (match E.source.token with
              | some token => ",\"token\":\"".data ++ cstring token ++ "\"".data
              | none => [])
          ++ "\x7d".data := by
  unfold json_status_event
  cases E.source.token <;> simp only [List.append_assoc, List.append_nil]

/-! ## Helper lemmas: the loops and blocks of `status_json` -/

theorem json_status_service_append (M : Env) (S : Service_T) (B : StringBuffer_T) (V : Int) :
    json_status_service M S B V = B ++ json_status_service M S [] V := by
  rw [json_status_service_eq M S B V, json_status_service_eq M S [] V]
  simp only [List.append_assoc, List.nil_append]

theorem json_services_true (M : Env) (V : Int) (l : List Service_T) (B : StringBuffer_T) :
    json_services M V l B true
      = B ++ (l.map (fun S => json_status_service M S [] V)).flatMap (fun y => ",".data ++ y) := by
  induction l generalizing B with
  | nil => simp [json_services]
  | cons S l ih =>
    simp only [json_services, if_true, ih]
    rw [json_status_service_append]
    simp [List.flatMap_cons]

theorem json_services_false (M : Env) (V : Int) (l : List Service_T) (B : StringBuffer_T) :
    json_services M V l B false
      = B ++ commaSeparated (l.map (fun S => json_status_service M S [] V)) := by
  cases l with
  | nil => simp [json_services, commaSeparated]
  | cons S l =>
    simp only [json_services, json_services_true, List.map_cons, commaSeparated_cons]
    rw [json_status_service_append]
    simp

theorem json_members_true (l : List Service_T) (B : StringBuffer_T) :
    json_members l B true
      = B ++ (l.map (fun s => "\"".data ++ fmt_s s.name ++ "\"".data)).flatMap (fun y => ",".data ++ y) := by
  induction l generalizing B with
  | nil => simp [json_members]
  | cons s l ih =>
    simp only [json_members, if_true, ih]
    simp [List.flatMap_cons]

theorem json_members_false (l : List Service_T) (B : StringBuffer_T) :
    json_members l B false
      = B ++ commaSeparated (l.map (fun s => "\"".data ++ fmt_s s.name ++ "\"".data)) := by
  cases l with
  | nil => simp [json_members, commaSeparated]
  | cons s l =>
    simp only [json_members, json_members_true, List.map_cons, commaSeparated_cons]
    simp

theorem json_status_servicegroup_eq (SG : ServiceGroup_T) (B : StringBuffer_T) :
    json_status_servicegroup SG B
      = B ++ "\x7b\"@name\":\"".data ++ cstring SG.name ++ "\",\"service\":[".data
          ++ commaSeparated (SG.members.map (fun s => "\"".data ++ fmt_s s.name ++ "\"".data))
          ++ "]\x7d".data := by
  simp only [json_status_servicegroup, json_members_false]

theorem json_status_servicegroup_append (SG : ServiceGroup_T) (B : StringBuffer_T) :
    json_status_servicegroup SG B = B ++ json_status_servicegroup SG [] := by
  rw [json_status_servicegroup_eq SG B, json_status_servicegroup_eq SG []]
  simp only [List.append_assoc, List.nil_append]

theorem json_servicegroups_true (l : List ServiceGroup_T) (B : StringBuffer_T) :
    json_servicegroups l B true
      = B ++ (l.map (fun SG => json_status_servicegroup SG [])).flatMap
          (fun y => ",".data ++ y) := by
  induction l generalizing B with
  | nil => simp [json_servicegroups]
  | cons SG l ih =>
    simp only [json_servicegroups, if_true, ih]
    rw [json_status_servicegroup_append]
    simp [List.flatMap_cons]

theorem json_servicegroups_false (l : List ServiceGroup_T) (B : StringBuffer_T) :
    json_servicegroups l B false
      = B ++ commaSeparated (l.map (fun SG => json_status_servicegroup SG [])) := by
  cases l with
  | nil => simp [json_servicegroups, commaSeparated]
  | cons SG l =>
    simp only [json_servicegroups, json_servicegroups_true, List.map_cons,
      commaSeparated_cons]
    rw [json_status_servicegroup_append]
    simp

set_option maxHeartbeats 4000000 in
theorem json_document_head_append (M : Env) (B : StringBuffer_T) (V : Int)
    (myip : Option CStr) :
    json_document_head M B V myip = B ++ json_document_head M [] V myip := by
  unfold json_document_head
  cases M.Run.mmonitcredentials <;> cases M.Run.httpd_socket_net_address <;>
    simp only [] <;> split_ifs <;>
    simp only [List.append_assoc, List.nil_append, List.append_nil]

/-- The text `status_json` appends, part by part. -/
theorem status_json_eq (M : Env) (B : StringBuffer_T) (E : Option Event_T) (V : Int)
    (myip : Option CStr) :
    status_json M B E V myip
      = B ++ json_document_head M [] V myip
          ++ (if V = 2 then "\"services\":\x7b".data else [])
          ++ "\"service\":[".data
          ++ commaSeparated (M.servicelist_conf.map (fun S => json_status_service M S [] V))
          ++ "]".data
          ++ (if V = 2 then
                "\x7d,\"servicegroups\":\x7b\"servicegroup\":[".data
                  ++ commaSeparated
                      (M.servicegrouplist.map (fun SG => json_status_servicegroup SG []))
                  ++ "]\x7d".data
              else [])
          ++ (match E with
              | some E => json_status_event M E []
              | none => [])
          ++ "\x7d\x7d".data := by
  unfold status_json json_document_foot
  simp only [json_services_false, json_servicegroups_false]
  rw [json_document_head_append M B V myip]
  cases E with
  | none =>
    by_cases hV : V = 2
    · simp only [hV, if_true, List.append_assoc, List.append_nil]
    · simp only [hV, if_false, List.append_assoc, List.append_nil]
  | some E =>
    simp only []
    rw [json_status_event_append]
    by_cases hV : V = 2
    · simp only [hV, if_true, List.append_assoc, List.append_nil]
    · simp only [hV, if_false, List.append_assoc, List.append_nil]

theorem json_status_service_without_groups (M : Env) (groups : List ServiceGroup_T)
    (S : Service_T) (B : StringBuffer_T) (V : Int) :
    json_status_service { M with servicegrouplist := groups } S B V
      = json_status_service M S B V := by
  rw [json_status_service_eq, json_status_service_eq]
  rfl

/-! ## The document assembler -/

/-- C11: for every snapshot, `status_json` with version 2 emits, after the service list,
the member `servicegroups` whose `servicegroup` array holds the encoding of each group
in list order, separated by single commas; with version 1 it emits the service list and
nothing for the groups: the version 1 document is the same whatever the group list is.
The service list (one encoding per service in list order) is emitted in both. -/
theorem servicegroups_only_in_version_2 (M : Env) (B : StringBuffer_T)
    (E : Option Event_T) (myip : Option CStr) :
    status_json M B E 2 myip
        = B ++ json_document_head M [] 2 myip ++ "\"services\":\x7b\"service\":[".data
            ++ commaSeparated (M.servicelist_conf.map (fun S => json_status_service M S [] 2))
            ++ "]\x7d,\"servicegroups\":\x7b\"servicegroup\":[".data
            ++ commaSeparated
                (M.servicegrouplist.map (fun SG => json_status_servicegroup SG []))
            ++ "]\x7d".data
            ++ (match E with
                | some E => json_status_event M E []
                | none => [])
            ++ "\x7d\x7d".data
      ∧ status_json M B E 1 myip
        = B ++ json_document_head M [] 1 myip ++ "\"service\":[".data
            ++ commaSeparated (M.servicelist_conf.map (fun S => json_status_service M S [] 1))
            ++ "]".data
            ++ (match E with
                | some E => json_status_event M E []
                | none => [])
            ++ "\x7d\x7d".data
      ∧ ∀ groups : List ServiceGroup_T,
          status_json { M with servicegrouplist := groups } B E 1 myip
            = status_json M B E 1 myip := by
  have h12 : ¬ ((1 : Int) = 2) := by decide
  refine ⟨?_, ?_, ?_⟩
  · rw [status_json_eq]
    cases E <;> simp only [if_true, List.append_assoc, List.cons_append, List.nil_append]
  · rw [status_json_eq]
    cases E <;> simp only [h12, if_false, List.append_assoc, List.append_nil]
  · intro groups
    rw [status_json_eq, status_json_eq]
    simp only [h12, if_false, json_status_service_without_groups]
    rfl

/-- C12: for every snapshot and version there is one text, the head and the lists, such
that `status_json` with a NULL event gives that text followed by the foot, and with an
event gives that text, then the event block that `json_status_event` emits for the
event (it starts with the key `"event"`), once, then the foot. The functions are total, so the call returns in both cases. -/
theorem event_block_iff_event_supplied (M : Env) (B : StringBuffer_T) (V : Int)
    (myip : Option CStr) :
    ∃ lists : List Char,
      lists = B ++ json_document_head M [] V myip
          ++ (if V = 2 then "\"services\":\x7b".data else [])
          ++ "\"service\":[".data
          ++ commaSeparated (M.servicelist_conf.map (fun S => json_status_service M S [] V))
          ++ "]".data
          ++ (if V = 2 then
                "\x7d,\"servicegroups\":\x7b\"servicegroup\":[".data
                  ++ commaSeparated
                      (M.servicegrouplist.map (fun SG => json_status_servicegroup SG []))
                  ++ "]\x7d".data
              else [])
        ∧ status_json M B none V myip = lists ++ "\x7d\x7d".data
        ∧ ∀ E : Event_T,
            status_json M B (some E) V myip = lists ++ json_status_event M E [] ++ "\x7d\x7d".data
              ∧ json_status_event M E []
                  = "\"event\":\x7b".data ++ (json_status_event M E []).drop 9 := by
  refine ⟨_, rfl, ?_, ?_⟩
  · rw [status_json_eq]
    simp only [List.append_assoc, List.nil_append]
  · intro E
    refine ⟨?_, ?_⟩
    · rw [status_json_eq]
    · have h := json_status_event_starts_with_key M E []
      rw [List.nil_append] at h
      exact h

/-- C13: with no service, no service group, no event and version 2, the document is the
head followed by exactly `"services":{"service":[]},"servicegroups":{"servicegroup":[]}`
and the foot `}}`. -/
theorem empty_lists_version_2 (M : Env) (B : StringBuffer_T) (myip : Option CStr)
    (hs : M.servicelist_conf = []) (hg : M.servicegrouplist = []) :
    status_json M B none 2 myip
      = json_document_head M B 2 myip
          ++ "\"services\":\x7b\"service\":[]\x7d,\"servicegroups\":\x7b\"servicegroup\":[]\x7d".data ++ "\x7d\x7d".data := by
  rw [status_json_eq, json_document_head_append M B 2 myip, hs, hg]
  simp only [if_true, List.map_nil, commaSeparated, List.append_assoc, List.cons_append,
    List.nil_append, List.append_nil]

set_option maxRecDepth 100000 in
/-- Witness of C13: the document of the snapshot `demoEnv`. -/
theorem empty_lists_version_2_witness :
    (status_json demoEnv [] none 2 none).drop 344
      = "\"services\":\x7b\"service\":[]\x7d,\"servicegroups\":\x7b\"servicegroup\":[]\x7d\x7d\x7d".data :=
  (congrArg (List.drop 344) (empty_lists_version_2 demoEnv [] none rfl rfl)).trans (by decide)

/-! ## The service group encoder -/

/-- C16: for every service group, `json_status_servicegroup` emits exactly the object
with the group name under `@name` and, under `service`, the array of the member names
as `%s` prints them, each between double quotes, in member-list order, separated by
single commas, with nothing between the brackets for a group without members; nothing
else of a member is emitted. -/
theorem servicegroup_lists_member_names (SG : ServiceGroup_T) (B : StringBuffer_T) :
    json_status_servicegroup SG B
      = B ++ "\x7b\"@name\":\"".data ++ cstring SG.name ++ "\",\"service\":[".data
          ++ commaSeparated (SG.members.map (fun s => "\"".data ++ fmt_s s.name ++ "\"".data))
          ++ "]\x7d".data :=
  json_status_servicegroup_eq SG B

/-! ## The service encoder: recurrence, has-status, filesystem -/

/-- C18: for every service of every type for which `Util_hasServiceStatus` does not hold,
the encoding is the header, the common fields, the dependency array and the optional
`every` object, closed by the brace: nothing of the type-specific fields, of the `icmp`,
`port` and `unix` arrays, of the `system` object or of the `program` object is emitted. -/
theorem without_status_only_common_part (M : Env) (S : Service_T) (B : StringBuffer_T)
    (V : Int) (h : M.x.Util_hasServiceStatus S = false) :
    json_status_service M S B V
      = B ++ json_service_header M S [] V ++ json_service_common S []
          ++ commaSeparated ((S.dependantlist.filterMap (fun d => d.dependant)).map quoted)
          ++ "]".data ++ json_service_every M S [] ++ "\x7d".data := by
  rw [json_status_service_eq, h]
  simp only [Bool.false_eq_true, if_false, List.append_assoc, List.append_nil]

set_option maxRecDepth 100000 in
/-- Witness of C18: a process service that is not monitored, with a configured check;
neither the process fields nor the arrays are emitted. -/
theorem without_status_only_common_part_witness :
    json_status_service demoEnv
        { demoServiceOf Service_Type.Service_Process 0 with
          icmplist := [⟨8, 1, ⟨false, 3, 0⟩⟩] } [] 1
      = "\x7b\"@type\":3,\"name\":\"web\",\"collected_sec\":1700000100,\"collected_usec\":999,\"status\":0,\"status_hint\":0,\"monitor\":0,\"monitormode\":0,\"onreboot\":0,\"pendingaction\":0,\"depends_on\":[]\x7d".data :=
  (without_status_only_common_part demoEnv
      { demoServiceOf Service_Type.Service_Process 0 with
        icmplist := [⟨8, 1, ⟨false, 3, 0⟩⟩] } [] 1 (by decide)).trans (by decide)

/-! ## One process service -/

theorem json_service_info_process (M : Env) (S : Service_T)
    (ht : S.type = Service_Type.Service_Process) :
    json_service_info M S []
      = ",\"pid\":".data ++ fmt_d S.inf.process.pid
          ++ ",\"ppid\":".data ++ fmt_d S.inf.process.ppid
          ++ ",\"uid\":".data ++ fmt_d S.inf.process.uid
          ++ ",\"euid\":".data ++ fmt_d S.inf.process.euid
          ++ ",\"gid\":".data ++ fmt_d S.inf.process.gid
          ++ ",\"uptime\":".data ++ fmt_d (toLongLong S.inf.process.uptime)
          ++ (if M.Run.flags &&& M.h.Run_ProcessEngineEnabled ≠ 0 then
                ",\"threads\":".data ++ fmt_d S.inf.process.threads
                  ++ ",\"children\":".data ++ fmt_d S.inf.process.children
                  ++ ",\"memory\":\x7b\"percent\":".data ++ fmt_f 1 S.inf.process.mem_percent
                  ++ ",\"percenttotal\":".data ++ fmt_f 1 S.inf.process.total_mem_percent
                  ++ ",\"kilobyte\":".data ++ fmt_u (bytesToKilobytes S.inf.process.mem)
                  ++ ",\"kilobytetotal\":".data ++ fmt_u (bytesToKilobytes S.inf.process.total_mem)
                  ++ "\x7d,\"cpu\":\x7b\"percent\":".data ++ fmt_f 1 S.inf.process.cpu_percent
                  ++ ",\"percenttotal\":".data ++ fmt_f 1 S.inf.process.total_cpu_percent ++ "\x7d".data
              else []) := by
  unfold json_service_info
  rw [ht]
  simp only []
  split <;> simp only [List.append_assoc, List.nil_append, List.append_nil]

theorem json_service_system_process (M : Env) (S : Service_T) (B : StringBuffer_T)
    (ht : S.type = Service_Type.Service_Process) : json_service_system M S B = B := by
  unfold json_service_system
  rw [ht]
  rw [if_neg (by simp)]

theorem json_service_program_process (S : Service_T) (B : StringBuffer_T)
    (ht : S.type = Service_Type.Service_Process) : json_service_program S B = B := by
  unfold json_service_program
  rw [ht]
  rw [if_neg (by simp)]

set_option maxRecDepth 100000 in
/-- C14, as stated, fails: the snapshot of one process service without checks whose
monitoring is disabled (monitor flag 0), for which `Util_hasServiceStatus` does not hold,
gives a version 1 document whose one service element has neither a `pid` field nor the
`icmp`, `port` and `unix` arrays. -/
theorem unmonitored_process_has_no_pid :
    (demoServiceOf Service_Type.Service_Process 0).monitor = 0
      ∧ (demoServiceOf Service_Type.Service_Process 0).type = Service_Type.Service_Process
      ∧ (demoServiceOf Service_Type.Service_Process 0).icmplist.length = 0
      ∧ (demoServiceOf Service_Type.Service_Process 0).portlist.length = 0
      ∧ (demoServiceOf Service_Type.Service_Process 0).socketlist.length = 0
      ∧ demoEnv.x.Util_hasServiceStatus (demoServiceOf Service_Type.Service_Process 0) = false
      ∧ (status_json (demoEnvWith [demoServiceOf Service_Type.Service_Process 0] []) []
            none 1 none).drop 341
          = "\"service\":[\x7b\"@type\":3,\"name\":\"web\",\"collected_sec\":1700000100,\"collected_usec\":999,\"status\":0,\"status_hint\":0,\"monitor\":0,\"monitormode\":0,\"onreboot\":0,\"pendingaction\":0,\"depends_on\":[]\x7d]\x7d\x7d".data := by
  decide

/-- C14, amended: for every snapshot of exactly one service, of type process, without
ICMP, port and local-socket checks, and no event, the version 1 document is the head, the
`service` array with the one element and the foot (no event block); the element has the
`pid` field and the other process fields followed by `"icmp":[],"port":[],"unix":[]` when
`Util_hasServiceStatus` holds for the service, and ends after the dependency array and
the optional `every` object when it does not hold. -/
theorem single_process_service (M : Env) (S : Service_T) (B : StringBuffer_T)
    (myip : Option CStr) (hl : M.servicelist_conf = [S])
    (ht : S.type = Service_Type.Service_Process)
    (hi : S.icmplist = []) (hp : S.portlist = []) (hu : S.socketlist = []) :
    status_json M B none 1 myip
        = json_document_head M B 1 myip ++ "\"service\":[".data
            ++ json_status_service M S [] 1 ++ "]".data ++ "\x7d\x7d".data
      ∧ json_status_service M S [] 1
        = json_service_header M S [] 1 ++ json_service_common S []
            ++ commaSeparated
                ((S.dependantlist.filterMap (fun d => d.dependant)).map quoted)
            ++ "]".data ++ json_service_every M S []
            ++ (if M.x.Util_hasServiceStatus S then
                  ",\"pid\":".data ++ fmt_d S.inf.process.pid
                    ++ ",\"ppid\":".data ++ fmt_d S.inf.process.ppid
                    ++ ",\"uid\":".data ++ fmt_d S.inf.process.uid
                    ++ ",\"euid\":".data ++ fmt_d S.inf.process.euid
                    ++ ",\"gid\":".data ++ fmt_d S.inf.process.gid
                    ++ ",\"uptime\":".data ++ fmt_d (toLongLong S.inf.process.uptime)
                    ++ (if M.Run.flags &&& M.h.Run_ProcessEngineEnabled ≠ 0 then
                          ",\"threads\":".data ++ fmt_d S.inf.process.threads
                            ++ ",\"children\":".data ++ fmt_d S.inf.process.children
                            ++ ",\"memory\":\x7b\"percent\":".data ++ fmt_f 1 S.inf.process.mem_percent
                            ++ ",\"percenttotal\":".data
                            ++ fmt_f 1 S.inf.process.total_mem_percent
                            ++ ",\"kilobyte\":".data ++ fmt_u (bytesToKilobytes S.inf.process.mem)
                            ++ ",\"kilobytetotal\":".data
                            ++ fmt_u (bytesToKilobytes S.inf.process.total_mem)
                            ++ "\x7d,\"cpu\":\x7b\"percent\":".data ++ fmt_f 1 S.inf.process.cpu_percent
                            ++ ",\"percenttotal\":".data
                            ++ fmt_f 1 S.inf.process.total_cpu_percent ++ "\x7d".data
                        else [])
                    ++ ",\"icmp\":[],\"port\":[],\"unix\":[]".data
                else [])
            ++ "\x7d".data := by
  constructor
  · rw [status_json_eq, json_document_head_append M B 1 myip, hl]
    have h12 : ¬ ((1 : Int) = 2) := by decide
    simp only [h12, if_false, List.map_cons, List.map_nil, commaSeparated, List.append_assoc,
      List.append_nil, List.nil_append]
  · rw [json_status_service_eq,
      json_service_system_process M S [] ht, json_service_program_process S [] ht,
      json_service_info_process M S ht, hi, hp, hu]
    cases M.x.Util_hasServiceStatus S <;>
      simp only [Bool.false_eq_true, if_false, if_true, List.map_nil, commaSeparated,
        List.append_assoc, List.cons_append, List.append_nil, List.nil_append]

set_option maxRecDepth 100000 in
/-- Witness of C14 amended: a monitored process service without checks. -/
theorem single_process_service_witness :
    json_status_service (demoEnvWith [demoServiceOf Service_Type.Service_Process 1] [])
        (demoServiceOf Service_Type.Service_Process 1) [] 1
      = "\x7b\"@type\":3,\"name\":\"web\",\"collected_sec\":1700000100,\"collected_usec\":999,\"status\":0,\"status_hint\":0,\"monitor\":1,\"monitormode\":0,\"onreboot\":0,\"pendingaction\":0,\"depends_on\":[],\"pid\":1234,\"ppid\":1,\"uid\":0,\"euid\":0,\"gid\":0,\"uptime\":86400,\"threads\":7,\"children\":2,\"memory\":\x7b\"percent\":1.5,\"percenttotal\":2.5,\"kilobyte\":1,\"kilobytetotal\":4\x7d,\"cpu\":\x7b\"percent\":0.2,\"percenttotal\":0.5\x7d,\"icmp\":[],\"port\":[],\"unix\":[]\x7d".data :=
  (single_process_service (demoEnvWith [demoServiceOf Service_Type.Service_Process 1] [])
      (demoServiceOf Service_Type.Service_Process 1) [] none rfl rfl rfl rfl rfl).2.trans
    (by decide)

/-! ## Escaped and unescaped strings -/

theorem scanLiteral_escaped (s : List Char) :
    scanLiteral false (s.flatMap escapeRule) = some false := by
  induction s with
  | nil => rfl
  | cons c s ih =>
    by_cases h1 : c = BACKSLASH
    · simp only [List.flatMap_cons, escapeRule, h1, if_true, List.cons_append,
        List.nil_append, scanLiteral, dquote_ne_backslash.symm, if_false, ih]
    · by_cases h2 : c = DQUOTE
      · simp only [List.flatMap_cons, escapeRule, h2, dquote_ne_backslash, if_true, if_false,
          List.cons_append, List.nil_append, scanLiteral, dquote_ne_backslash.symm, ih]
      · simp only [List.flatMap_cons, escapeRule, h1, h2, if_false, List.cons_append,
          List.nil_append, scanLiteral, ih]

set_option maxRecDepth 100000 in
/-- C15, as stated, fails: the hostname of a network-port check is emitted as it is; a
hostname with a double-quote appears with the bare quote, which closes the string literal
of the `hostname` field inside the hostname. -/
theorem port_hostname_is_not_escaped :
    json_port demoEnv ⟨some ['a', DQUOTE, 'b'], 80, none, none, 1, ⟨false, 0, 0⟩⟩ []
        = "\x7b\"hostname\":\"a\"b\",\"portnumber\":80,\"request\":\"/index.html\",\"protocol\":\"\",\"type\":\"TCP\",\"responsetime\":0.000000\x7d".data
      ∧ scanLiteral false (fmt_s_or_empty (some ['a', DQUOTE, 'b'])) = none := by
  decide

/-- C15, amended: for every network-port check the request description, for every event
the message and for every program service that has run the captured output are emitted
between double quotes in escaped form, every backslash and double-quote replaced by the
rule of the escaper; an escaped text never closes the string literal it is placed in and
never ends in a backslash that would escape the closing quote. The hostname of a
network-port check is emitted as `%s` prints it. -/
theorem free_text_is_escaped (M : Env) (p : Port_T) (E : Event_T) (S : Service_T)
    (B : StringBuffer_T) :
    (∃ rest : List Char,
        json_port M p B
          = B ++ "\x7b\"hostname\":\"".data ++ fmt_s_or_empty p.hostname
              ++ "\",\"portnumber\":".data ++ fmt_d p.target_net_port ++ ",\"request\":\"".data
              ++ (cstring (M.x.Util_portRequestDescription p)).flatMap escapeRule
              ++ "\"".data ++ rest)
      ∧ (∃ before : List Char,
          json_event_fields M E B
            = before ++ ",\"message\":\"".data ++ (cstring E.message).flatMap escapeRule ++ "\"".data)
      ∧ (S.type = Service_Type.Service_Program → S.program.started ≠ 0 →
          json_service_program S B
            = B ++ ",\"program\":\x7b\"started\":".data ++ fmt_d (toLongLong S.program.started)
                ++ ",\"status\":".data ++ fmt_d S.program.exitStatus ++ ",\"output\":\"".data
                ++ (cstring S.program.output).flatMap escapeRule ++ "\"\x7d".data)
      ∧ ∀ text : List Char, scanLiteral false (text.flatMap escapeRule) = some false := by
  refine ⟨?_, ?_, ?_, scanLiteral_escaped⟩
  · refine ⟨",\"protocol\":\"".data ++ fmt_s_or_empty p.protocol_name
        ++ "\",\"type\":\"".data ++ cstring (M.x.Util_portTypeDescription p)
        ++ "\",\"responsetime\":".data
        ++ fmt_f 6 (if p.is_available = M.h.Connection_Ok then Dbl.div p.response Dbl.c1000
            else Dbl.minusOne)
        ++ "\x7d".data, ?_⟩
    simp only [json_port, escapeJSON_eq, List.append_assoc, List.cons_append, List.nil_append]
  · refine ⟨B ++ "\"event\":\x7b\"collected_sec\":".data ++ fmt_d (toLongLong E.collected.tv_sec)
        ++ ",\"collected_usec\":".data ++ fmt_d (toLongLong E.collected.tv_usec)
        ++ ",\"service\":\"".data
        ++ (if E.id = M.h.Event_Instance then "Monit".data else fmt_s E.source.name)
        ++ "\",\"type\":".data ++ fmt_d E.type
        ++ ",\"id\":".data ++ fmt_d E.id
        ++ ",\"state\":".data ++ fmt_d E.state
        ++ ",\"action\":".data ++ fmt_d (M.x.Event_get_action E), ?_⟩
    simp only [json_event_fields, escapeJSON_eq, List.append_assoc]
  · intro ht hs
    unfold json_service_program
    rw [if_pos ⟨ht, hs⟩]
    simp only [escapeJSON_eq, List.append_assoc]


set_option maxRecDepth 100000 in
/-- Witness of C15 amended: the captured output `say "hi"` of a program service. -/
theorem free_text_is_escaped_witness :
    json_service_program
        { demoServiceOf Service_Type.Service_Program 1 with
          program := ⟨1700000200, 0, ['s', 'a', 'y', ' ', DQUOTE, 'h', 'i', DQUOTE]⟩ } []
      = ",\"program\":\x7b\"started\":1700000200,\"status\":0,\"output\":\"say \\\"hi\\\"\"\x7d".data :=
  ((free_text_is_escaped demoEnv ⟨none, 80, none, none, 1, ⟨false, 0, 0⟩⟩ (demoEvent none)
      { demoServiceOf Service_Type.Service_Program 1 with
        program := ⟨1700000200, 0, ['s', 'a', 'y', ' ', DQUOTE, 'h', 'i', DQUOTE]⟩ }
      []).2.2.1 rfl (by decide)).trans (by decide)

/-! ## Absent strings -/

set_option maxRecDepth 100000 in
/-- C20, as stated, fails: with a network listener whose address is NULL and a client
address passed to the call, the `address` field is the client address, not the empty
string. -/
theorem null_listener_address_gives_client_address :
    demoEnv.Run.httpd_socket_net_address = none
      ∧ demoEnv.Run.httpd_flags &&& demoEnv.h.Httpd_Net ≠ 0
      ∧ json_document_head demoEnv [] 1 (some "10.0.0.1".data)
          = "\x7b\"monit\":\x7b\"server\":\x7b\"id\":\"b1946ac9\",\"incarnation\":1700000000,\"version\":\"5.26.0\",\"uptime\":4242,\"poll\":30,\"startdelay\":0,\"localhostname\":\"host.example\",\"controlfile\":\"/etc/monitrc\",\"httpd\":\x7b\"address\":\"10.0.0.1\",\"port\":2812,\"ssl\":0\x7d\x7d,\"platform\":\x7b\"name\":\"Linux\",\"release\":\"6.1.0\",\"version\":\"#1 SMP\",\"machine\":\"x86_64\",\"cpu\":4,\"memory\":8388608,\"swap\":1\x7d,".data := by
  decide

/-! ## Blocks to megabytes -/

theorem roundHalfEven_scale (x d c : Nat) (hc : 0 < c) :
    roundHalfEven (x * c) (d * c) = roundHalfEven x d := by
  unfold roundHalfEven
  simp only [Nat.mul_div_mul_right x d hc, Nat.mul_mod_mul_right]
  have h1 : (d * c < 2 * (x % d * c)) ↔ (d < 2 * (x % d)) := by
    rw [← Nat.mul_assoc]
    exact Nat.mul_lt_mul_right hc
  have h2 : (2 * (x % d * c) = d * c) ↔ (2 * (x % d) = d) := by
    rw [← Nat.mul_assoc]
    exact Nat.mul_left_inj (Nat.pos_iff_ne_zero.mp hc)
  simp only [h1, h2]

theorem roundHalfEven_one (x : Nat) : roundHalfEven x 1 = x := by
  have h := roundHalfEven_exact x 1 (by decide)
  rwa [Nat.mul_one] at h

theorem floorLog2_le (num den : Nat) : floorLog2 num den ≤ (ilog2 num : Int) - ilog2 den := by
  unfold floorLog2
  simp only []
  split <;> omega

theorem round_sign (neg : Bool) (num den : Nat) (e : Int) :
    (Dbl.round neg num den e).neg = neg := by
  unfold Dbl.round
  split
  · rfl
  · dsimp only
    split <;> rfl

theorem round_div_1048576 (b : Nat) (hb : 0 < b) (h : b < 2 ^ 53) :
    ∃ a : Nat, 20 ≤ a ∧
      Dbl.round false b 1048576 0 = ⟨false, b * 2 ^ (a - 20), Int.negSucc (a - 1)⟩ := by
  have hL : floorLog2 b 1048576 ≤ 32 := by
    have h1 := floorLog2_le b 1048576
    have h2 : ilog2 b ≤ 52 := ilog2_le b 52 h
    have h3 : ilog2 1048576 = 20 := by decide
    omega
  unfold Dbl.round
  have hb0 : ¬ (b = 0 ∨ 1048576 = 0) := by omega
  simp only [hb0, if_false]
  generalize ht : max (floorLog2 b 1048576 + 0 - 52) (-1074) = t
  have ht1 : t ≤ -20 := by omega
  have ht2 : -1074 ≤ t := by omega
  refine ⟨(-t).toNat, by omega, ?_⟩
  have he : (0 : Int) - t = Int.ofNat (-t).toNat := by
    simp only [Int.ofNat_eq_coe]
    omega
  rw [he]
  simp only
  have hpow : b * 2 ^ (-t).toNat = b * 2 ^ ((-t).toNat - 20) * 1048576 := by
    have : (-t).toNat = ((-t).toNat - 20) + 20 := by omega
    conv_lhs => rw [this, Nat.pow_add]
    ring
  rw [hpow, roundHalfEven_exact _ _ (by decide)]
  have hneg : t = Int.negSucc ((-t).toNat - 1) := by
    rw [Int.negSucc_eq]
    omega
  congr 1

theorem round_scaled_product (X a : Nat) (hX : 0 < X) (h : X < 2 ^ 53) (ha : 20 ≤ a) :
    ∃ c : Nat, 20 ≤ c ∧
      Dbl.round false (X * 2 ^ (a - 20)) 1 (Int.negSucc (a - 1) + 0)
        = ⟨false, X * 2 ^ (c - 20), Int.negSucc (c - 1)⟩ := by
  have hN : X * 2 ^ (a - 20) < 2 ^ (a + 32 + 1) := by
    have h1 : X * 2 ^ (a - 20) < 2 ^ 53 * 2 ^ (a - 20) :=
      Nat.mul_lt_mul_of_pos_right h (Nat.two_pow_pos _)
    have h2 : 2 ^ 53 * 2 ^ (a - 20) = 2 ^ (a + 32 + 1) := by
      rw [← Nat.pow_add]
      congr 1
      omega
    omega
  have hL : floorLog2 (X * 2 ^ (a - 20)) 1 ≤ (a : Int) + 32 := by
    have h1 := floorLog2_le (X * 2 ^ (a - 20)) 1
    have h2 : ilog2 (X * 2 ^ (a - 20)) ≤ a + 32 := ilog2_le _ _ hN
    have h3 : ilog2 1 = 0 := by decide
    omega
  have hNpos : 0 < X * 2 ^ (a - 20) := Nat.mul_pos hX (Nat.two_pow_pos _)
  unfold Dbl.round
  have hb0 : ¬ (X * 2 ^ (a - 20) = 0 ∨ 1 = 0) := by omega
  simp only [hb0, if_false]
  have hea : Int.negSucc (a - 1) + 0 = -(a : Int) := by
    rw [Int.negSucc_eq]
    omega
  rw [hea]
  generalize ht : max (floorLog2 (X * 2 ^ (a - 20)) 1 + -(a : Int) - 52) (-1074) = t
  have ht1 : t ≤ -20 := by omega
  have ht2 : -1074 ≤ t := by omega
  refine ⟨(-t).toNat, by omega, ?_⟩
  have hneg : t = Int.negSucc ((-t).toNat - 1) := by
    rw [Int.negSucc_eq]
    omega
  by_cases hca : a ≤ (-t).toNat
  · have he : -(a : Int) - t = Int.ofNat ((-t).toNat - a) := by
      simp only [Int.ofNat_eq_coe]
      omega
    rw [he]
    simp only
    rw [roundHalfEven_one]
    have hpow : X * 2 ^ (a - 20) * 2 ^ ((-t).toNat - a) = X * 2 ^ ((-t).toNat - 20) := by
      rw [Nat.mul_assoc, ← Nat.pow_add]
      congr 2
      omega
    rw [hpow]
    congr 1
  · have he : -(a : Int) - t = Int.negSucc (a - (-t).toNat - 1) := by
      rw [Int.negSucc_eq]
      omega
    rw [he]
    simp only
    have hpow : X * 2 ^ (a - 20)
        = X * 2 ^ ((-t).toNat - 20) * (1 * 2 ^ (a - (-t).toNat - 1 + 1)) := by
      rw [Nat.one_mul, Nat.mul_assoc, ← Nat.pow_add]
      congr 2
      omega
    conv_lhs => rw [hpow]
    rw [roundHalfEven_exact _ _ (Nat.mul_pos (by decide) (Nat.two_pow_pos _))]
    congr 1

theorem fmt_f_scaled_exponent (p X c : Nat) (hc : 20 ≤ c) :
    fmt_f p ⟨false, X * 2 ^ (c - 20), Int.negSucc (c - 1)⟩ = fmt_f p ⟨false, X, -20⟩ := by
  have hs : Dbl.scaled ⟨false, X * 2 ^ (c - 20), Int.negSucc (c - 1)⟩ (10 ^ p)
      = Dbl.scaled ⟨false, X, -20⟩ (10 ^ p) := by
    show roundHalfEven (X * 2 ^ (c - 20) * 10 ^ p) (2 ^ (c - 1 + 1))
      = roundHalfEven (X * 10 ^ p) (2 ^ (19 + 1))
    have h1 : X * 2 ^ (c - 20) * 10 ^ p = X * 10 ^ p * 2 ^ (c - 20) := by ring
    have h2 : 2 ^ (c - 1 + 1) = 2 ^ (19 + 1) * 2 ^ (c - 20) := by
      rw [← Nat.pow_add]
      congr 1
      omega
    rw [h1, h2, roundHalfEven_scale _ _ _ (Nat.two_pow_pos _)]
  unfold fmt_f
  simp only [hs]

theorem megabytes_exact (blocks size : Nat) (hs : 0 < size) (h : blocks * size < 2 ^ 53) :
    fmt_f 1 (Dbl.mul (Dbl.div (Dbl.ofInt (Int.ofNat blocks)) Dbl.c1048576)
        (Dbl.ofInt (Int.ofNat size)))
      = fmt_f 1 (megabytesExact blocks size) := by
  by_cases hb : blocks = 0
  · subst hb
    have hy : (Dbl.ofInt (Int.ofNat size)).neg = false := by
      show (if size < 2 ^ 53 then (⟨false, size, 0⟩ : Dbl) else Dbl.round false size 1 0).neg
        = false
      split
      · rfl
      · exact round_sign false size 1 0
    have hx : Dbl.div (Dbl.ofInt (Int.ofNat 0)) Dbl.c1048576 = ⟨false, 0, 0⟩ := by decide
    rw [hx]
    have hm : Dbl.mul ⟨false, 0, 0⟩ (Dbl.ofInt (Int.ofNat size)) = ⟨false, 0, 0⟩ := by
      unfold Dbl.mul Dbl.round
      simp only [hy, Nat.zero_mul, true_or, if_true, Bool.xor_false]
    rw [hm]
    unfold megabytesExact
    rw [Nat.zero_mul]
    decide
  · have hbpos : 0 < blocks := Nat.pos_of_ne_zero hb
    have hb53 : blocks < 2 ^ 53 := by
      have : blocks * 1 ≤ blocks * size := Nat.mul_le_mul_left blocks hs
      omega
    have hs53 : size < 2 ^ 53 := by
      have : 1 * size ≤ blocks * size := Nat.mul_le_mul_right size hbpos
      omega
    have hx : Dbl.ofInt (Int.ofNat blocks) = ⟨false, blocks, 0⟩ := by
      show (if blocks < 2 ^ 53 then (⟨false, blocks, 0⟩ : Dbl)
        else Dbl.round false blocks 1 0) = _
      rw [if_pos hb53]
    have hy : Dbl.ofInt (Int.ofNat size) = ⟨false, size, 0⟩ := by
      show (if size < 2 ^ 53 then (⟨false, size, 0⟩ : Dbl) else Dbl.round false size 1 0) = _
      rw [if_pos hs53]
    rw [hx, hy]
    obtain ⟨a, ha, hr⟩ := round_div_1048576 blocks hbpos hb53
    have hd : Dbl.div ⟨false, blocks, 0⟩ Dbl.c1048576
        = ⟨false, blocks * 2 ^ (a - 20), Int.negSucc (a - 1)⟩ := by
      show Dbl.round (xor false false) blocks 1048576 (0 - 0) = _
      simp only [Bool.xor_false, Int.sub_self]
      exact hr
    rw [hd]
    obtain ⟨c, hc, hr2⟩ := round_scaled_product (blocks * size) a
      (Nat.mul_pos hbpos hs) h ha
    have hm : Dbl.mul ⟨false, blocks * 2 ^ (a - 20), Int.negSucc (a - 1)⟩ ⟨false, size, 0⟩
        = ⟨false, blocks * size * 2 ^ (c - 20), Int.negSucc (c - 1)⟩ := by
      show Dbl.round (xor false false) (blocks * 2 ^ (a - 20) * size) 1
        (Int.negSucc (a - 1) + 0) = _
      simp only [Bool.xor_false]
      have : blocks * 2 ^ (a - 20) * size = blocks * size * 2 ^ (a - 20) := by ring
      rw [this]
      exact hr2
    rw [hm]
    exact fmt_f_scaled_exponent 1 (blocks * size) c hc

theorem fmt_f_zero : fmt_f 1 Dbl.zero = "0.0".data := by decide

theorem json_service_info_filesystem (M : Env) (S : Service_T)
    (ht : S.type = Service_Type.Service_Filesystem) :
    json_service_info M S []
      = ",\"mode\":".data ++ fmt_o (S.inf.filesystem.mode % 4096).toNat
          ++ ",\"uid\":".data ++ fmt_d (toInt S.inf.filesystem.uid)
          ++ ",\"gid\":".data ++ fmt_d (toInt S.inf.filesystem.gid)
          ++ ",\"flags\":".data ++ fmt_d S.inf.filesystem.flags
          ++ ",\"block\":\x7b\"percent\":".data ++ fmt_f 1 S.inf.filesystem.space_percent
          ++ ",\"usage\":".data
          ++ (if 0 < S.inf.filesystem.f_bsize then
                fmt_f 1 (Dbl.mul
                  (Dbl.div (Dbl.ofInt S.inf.filesystem.space_total) Dbl.c1048576)
                  (Dbl.ofInt S.inf.filesystem.f_bsize))
              else "0.0".data)
          ++ ",\"total\":".data
          ++ (if 0 < S.inf.filesystem.f_bsize then
                fmt_f 1 (Dbl.mul
                  (Dbl.div (Dbl.ofInt S.inf.filesystem.f_blocks) Dbl.c1048576)
                  (Dbl.ofInt S.inf.filesystem.f_bsize))
              else "0.0".data)
          ++ "\x7d".data
          ++ (if 0 < S.inf.filesystem.f_files then
                ",\"inode\":\x7b\"percent\":".data ++ fmt_f 1 S.inf.filesystem.inode_percent
                  ++ ",\"usage\":".data ++ fmt_d S.inf.filesystem.inode_total
                  ++ ",\"total\":".data ++ fmt_d S.inf.filesystem.f_files ++ "\x7d".data
              else []) := by
  unfold json_service_info
  rw [ht]
  simp only []
  by_cases hb : 0 < S.inf.filesystem.f_bsize
  · rw [if_pos hb, if_pos hb, if_pos hb, if_pos hb]
    split <;> simp only [List.append_assoc, List.nil_append, List.append_nil]
  · rw [if_neg hb, if_neg hb, if_neg hb, if_neg hb, fmt_f_zero]
    split <;> simp only [List.append_assoc, List.nil_append, List.append_nil]

/-! ## The listener and credentials blocks of the head -/

set_option maxRecDepth 100000 in
/-- C21, as stated, fails: with central-collector credentials configured and no listener
(neither the network flag nor the local-socket flag set), the head has no credentials
block; the `server` object ends after `controlfile`. -/
theorem credentials_absent_without_listener :
    (demoEnvListener 0 (some ⟨"monit".data, "secret".data⟩)).Run.mmonitcredentials.isSome = true
      ∧ (demoEnvListener 0 (some ⟨"monit".data, "secret".data⟩)).Run.httpd_flags
          &&& (demoEnvListener 0 (some ⟨"monit".data, "secret".data⟩)).h.Httpd_Net = 0
      ∧ (demoEnvListener 0 (some ⟨"monit".data, "secret".data⟩)).Run.httpd_flags
          &&& (demoEnvListener 0 (some ⟨"monit".data, "secret".data⟩)).h.Httpd_Unix = 0
      ∧ json_document_head (demoEnvListener 0 (some ⟨"monit".data, "secret".data⟩)) [] 1 none
          = "\x7b\"monit\":\x7b\"server\":\x7b\"id\":\"b1946ac9\",\"incarnation\":1700000000,\"version\":\"5.26.0\",\"uptime\":4242,\"poll\":30,\"startdelay\":0,\"localhostname\":\"host.example\",\"controlfile\":\"/etc/monitrc\"\x7d,\"platform\":\x7b\"name\":\"Linux\",\"release\":\"6.1.0\",\"version\":\"#1 SMP\",\"machine\":\"x86_64\",\"cpu\":4,\"memory\":8388608,\"swap\":1\x7d,".data
      ∧ json_document_head (demoEnvListener 0 (some ⟨"monit".data, "secret".data⟩)) [] 2 none
          = "\x7b\"monit\":\x7b\"@id\":\"b1946ac9\",\"@incarnation\":1700000000,\"@version\":\"5.26.0\",\"server\":\x7b\"uptime\":4242,\"poll\":30,\"startdelay\":0,\"localhostname\":\"host.example\",\"controlfile\":\"/etc/monitrc\"\x7d,\"platform\":\x7b\"name\":\"Linux\",\"release\":\"6.1.0\",\"version\":\"#1 SMP\",\"machine\":\"x86_64\",\"cpu\":4,\"memory\":8388608,\"swap\":1\x7d,".data := by
  decide

set_option maxHeartbeats 4000000 in
/-- C21, amended: in both versions the head has, after `controlfile`, the `httpd` block of
network shape when the network flag of the listener is set, the `httpd` block of
local-socket shape when only the local-socket flag is set, and no `httpd` block when
neither is set, never both shapes; the credentials block (username and password) follows
the `httpd` block whenever central-collector credentials are configured and a listener
flag is set, and is absent when no listener flag is set or no credentials are
configured. -/
theorem credentials_follow_listener_block (M : Env) (B : StringBuffer_T) (V : Int)
    (myip : Option CStr) :
    json_document_head M B V myip
      = B ++ (if V = 2 then
                "\x7b\"monit\":\x7b\"@id\":\"".data ++ cstring M.Run.id
                  ++ "\",\"@incarnation\":".data ++ fmt_d (toLongLong M.Run.incarnation)
                  ++ ",\"@version\":\"".data ++ cstring M.h.VERSION ++ "\",\"server\":\x7b".data
              else
                "\x7b\"monit\":\x7b\"server\":\x7b\"id\":\"".data ++ cstring M.Run.id
                  ++ "\",\"incarnation\":".data ++ fmt_d (toLongLong M.Run.incarnation)
                  ++ ",\"version\":\"".data ++ cstring M.h.VERSION ++ "\",".data)
          ++ "\"uptime\":".data ++ fmt_d (toLongLong M.x.ProcessTree_getProcessUptime_getpid)
          ++ ",\"poll\":".data ++ fmt_d M.Run.polltime
          ++ ",\"startdelay\":".data ++ fmt_d M.Run.startdelay
          ++ ",\"localhostname\":\"".data ++ fmt_s_or_empty M.Run.system_name
          ++ "\",\"controlfile\":\"".data ++ fmt_s_or_empty M.Run.files_control ++ "\"".data
          ++ (if M.Run.httpd_flags &&& M.h.Httpd_Net ≠ 0 then
                ",\"httpd\":\x7b\"address\":\"".data
                  ++ (match M.Run.httpd_socket_net_address with
                      | some a => cstring a
                      | none => fmt_s_or_empty myip)
                  ++ "\",\"port\":".data ++ fmt_d M.Run.httpd_socket_net_port
                  ++ ",\"ssl\":".data ++ fmt_d (Int.ofNat (M.Run.httpd_flags &&& M.h.Httpd_Ssl))
                  ++ "\x7d".data
                  ++ (match M.Run.mmonitcredentials with
                      | some c =>
                        ",\"credentials\":\x7b\"username\":\"".data ++ cstring c.uname
                          ++ "\",\"password\":\"".data ++ cstring c.passwd ++ "\"\x7d".data
                      | none => [])
              else if M.Run.httpd_flags &&& M.h.Httpd_Unix ≠ 0 then
                ",\"httpd\":\x7b\"unixsocket\":\"".data ++ fmt_s_or_empty M.Run.httpd_socket_unix_path
                  ++ "\"\x7d".data
                  ++ (match M.Run.mmonitcredentials with
                      | some c =>
                        ",\"credentials\":\x7b\"username\":\"".data ++ cstring c.uname
                          ++ "\",\"password\":\"".data ++ cstring c.passwd ++ "\"\x7d".data
                      | none => [])
              else [])
          ++ "\x7d,\"platform\":\x7b\"name\":\"".data ++ cstring M.systeminfo.uname_sysname
          ++ "\",\"release\":\"".data ++ cstring M.systeminfo.uname_release
          ++ "\",\"version\":\"".data ++ cstring M.systeminfo.uname_version
          ++ "\",\"machine\":\"".data ++ cstring M.systeminfo.uname_machine
          ++ "\",\"cpu\":".data ++ fmt_d M.systeminfo.cpus
          ++ ",\"memory\":".data ++ fmt_u (bytesToKilobytes M.systeminfo.mem_max)
          ++ ",\"swap\":".data ++ fmt_u (bytesToKilobytes M.systeminfo.swap_max) ++ "\x7d,".data := by
  unfold json_document_head
  by_cases hn : M.Run.httpd_flags &&& M.h.Httpd_Net ≠ 0
  · cases M.Run.mmonitcredentials <;> cases M.Run.httpd_socket_net_address <;>
      simp only [] <;> rw [if_pos (Or.inl hn), if_pos hn, if_pos hn] <;>
      split_ifs <;> simp only [List.append_assoc, List.nil_append, List.append_nil]
  · by_cases hu : M.Run.httpd_flags &&& M.h.Httpd_Unix ≠ 0
    · cases M.Run.mmonitcredentials <;>
        simp only [] <;> rw [if_pos (Or.inr hu), if_neg hn, if_neg hn, if_pos hu, if_pos hu] <;>
        split_ifs <;> simp only [List.append_assoc, List.nil_append, List.append_nil]
    · have hno : ¬ (M.Run.httpd_flags &&& M.h.Httpd_Net ≠ 0
          ∨ M.Run.httpd_flags &&& M.h.Httpd_Unix ≠ 0) := by
        intro h
        rcases h with h | h
        · exact hn h
        · exact hu h
      simp only []
      rw [if_neg hno, if_neg hn, if_neg hu]
      split_ifs <;> simp only [List.append_assoc, List.nil_append, List.append_nil]

/-! ## The mode field -/

theorem digitChar_octal : ∀ k, k < 8 →
    48 ≤ (Nat.digitChar k).toNat ∧ (Nat.digitChar k).toNat ≤ 55
      ∧ (Nat.digitChar k).toNat - 48 = k ∧ (0 < k → Nat.digitChar k ≠ '0') := by
  decide

theorem fmt_o_digits (n : Nat) (h : n < 4096) :
    fmt_o n =
      if n < 8 then [Nat.digitChar n]
      else if n < 64 then [Nat.digitChar (n / 8), Nat.digitChar (n % 8)]
      else if n < 512 then
        [Nat.digitChar (n / 64), Nat.digitChar (n / 8 % 8), Nat.digitChar (n % 8)]
      else
        [Nat.digitChar (n / 512), Nat.digitChar (n / 64 % 8), Nat.digitChar (n / 8 % 8),
          Nat.digitChar (n % 8)] := by
  unfold fmt_o Nat.toDigits
  by_cases h8 : n < 8
  · have h0 : n / 8 = 0 := by omega
    have hm : n % 8 = n := by omega
    simp only [Nat.toDigitsCore, h0, hm, h8, if_true]
  · obtain ⟨m, rfl⟩ : ∃ m, n = m + 8 := ⟨n - 8, by omega⟩
    simp only [Nat.toDigitsCore, h8, if_false]
    have e1 : (m + 8) / 8 / 8 = (m + 8) / 64 := by omega
    have e2 : (m + 8) / 64 / 8 = (m + 8) / 512 := by omega
    have e4 : (m + 8) / 512 / 8 = 0 := by omega
    have e5 : (m + 8) / 8 ≠ 0 := by omega
    simp only [e1, e2, e4, e5, if_true, if_false]
    by_cases h64 : m + 8 < 64
    · have : (m + 8) / 64 = 0 := by omega
      have h2 : (m + 8) / 8 % 8 = (m + 8) / 8 := by omega
      simp only [this, h64, if_true, h2]
    · have a1 : (m + 8) / 64 ≠ 0 := by omega
      simp only [a1, h64, if_false]
      by_cases h512 : m + 8 < 512
      · have : (m + 8) / 512 = 0 := by omega
        have h2 : (m + 8) / 64 % 8 = (m + 8) / 64 := by omega
        simp only [this, h512, if_true, h2]
      · have a2 : (m + 8) / 512 ≠ 0 := by omega
        have h2 : (m + 8) / 512 % 8 = (m + 8) / 512 := by omega
        simp only [a2, h512, if_false, h2]

/-- The octal digits of a value below 4096: they denote the value, there are one to four
of them, each is a character from `0` to `7`, and the first is `0` only for the value 0. -/
theorem fmt_o_below_4096 (n : Nat) (h : n < 4096) :
    octalValue (fmt_o n) = n
      ∧ 1 ≤ (fmt_o n).length ∧ (fmt_o n).length ≤ 4
      ∧ (∀ c ∈ fmt_o n, 48 ≤ c.toNat ∧ c.toNat ≤ 55)
      ∧ (fmt_o n = ['0'] ∨ (fmt_o n).head? ≠ some '0') := by
  rw [fmt_o_digits n h]
  have d0 := digitChar_octal (n % 8) (by omega)
  have d1 := digitChar_octal (n / 8 % 8) (by omega)
  have d2 := digitChar_octal (n / 64 % 8) (by omega)
  have d3 := digitChar_octal (n / 512) (by omega)
  by_cases h8 : n < 8
  · have dn := digitChar_octal n h8
    simp only [h8, if_true, octalValue, List.foldl, List.length_cons, List.length_nil,
      List.mem_singleton, List.head?_cons]
    refine ⟨by omega, by omega, by omega, ?_, ?_⟩
    · intro c hc
      rw [hc]
      exact ⟨dn.1, dn.2.1⟩
    · by_cases hz : n = 0
      · left
        rw [hz]
        rfl
      · right
        intro hh
        exact dn.2.2.2 (by omega) (Option.some.inj hh)
  · by_cases h64 : n < 64
    · have e : n / 8 % 8 = n / 8 := by omega
      rw [e] at d1
      simp only [h8, h64, if_true, if_false, octalValue, List.foldl, List.length_cons,
        List.length_nil, List.mem_cons, List.mem_singleton, List.head?_cons]
      refine ⟨by omega, by omega, by omega, ?_, ?_⟩
      · intro c hc
        rcases hc with hc | hc | hc
        · rw [hc]
          exact ⟨d1.1, d1.2.1⟩
        · rw [hc]
          exact ⟨d0.1, d0.2.1⟩
        · exact absurd hc (List.not_mem_nil c)
      · right
        intro hh
        exact d1.2.2.2 (by omega) (Option.some.inj hh)
    · by_cases h512 : n < 512
      · have e : n / 64 % 8 = n / 64 := by omega
        rw [e] at d2
        simp only [h8, h64, h512, if_true, if_false, octalValue, List.foldl, List.length_cons,
          List.length_nil, List.mem_cons, List.mem_singleton, List.head?_cons]
        refine ⟨by omega, by omega, by omega, ?_, ?_⟩
        · intro c hc
          rcases hc with hc | hc | hc | hc
          · rw [hc]
            exact ⟨d2.1, d2.2.1⟩
          · rw [hc]
            exact ⟨d1.1, d1.2.1⟩
          · rw [hc]
            exact ⟨d0.1, d0.2.1⟩
          · exact absurd hc (List.not_mem_nil c)
        · right
          intro hh
          exact d2.2.2.2 (by omega) (Option.some.inj hh)
      · simp only [h8, h64, h512, if_false, octalValue, List.foldl, List.length_cons,
          List.length_nil, List.mem_cons, List.mem_singleton, List.head?_cons]
        refine ⟨by omega, by omega, by omega, ?_, ?_⟩
        · intro c hc
          rcases hc with hc | hc | hc | hc | hc
          · rw [hc]
            exact ⟨d3.1, d3.2.1⟩
          · rw [hc]
            exact ⟨d2.1, d2.2.1⟩
          · rw [hc]
            exact ⟨d1.1, d1.2.1⟩
          · rw [hc]
            exact ⟨d0.1, d0.2.1⟩
          · exact absurd hc (List.not_mem_nil c)
        · right
          intro hh
          exact d3.2.2.2 (by omega) (Option.some.inj hh)

theorem json_service_info_mode (M : Env) (S : Service_T)
    (ht : S.type = Service_Type.Service_File ∨ S.type = Service_Type.Service_Directory
      ∨ S.type = Service_Type.Service_Fifo ∨ S.type = Service_Type.Service_Filesystem) :
    ∃ rest : List Char,
      json_service_info M S []
        = ",\"mode\":".data ++ fmt_o (permissionMode S % 4096).toNat ++ ",\"uid\":".data ++ rest := by
  unfold json_service_info permissionMode
  rcases ht with ht | ht | ht | ht
  · rw [ht]
    simp only []
    cases S.checksum <;>
      exact ⟨_, by simp only [List.append_assoc, List.nil_append]; rfl⟩
  · rw [ht]
    exact ⟨_, by simp only [List.append_assoc, List.nil_append]; rfl⟩
  · rw [ht]
    exact ⟨_, by simp only [List.append_assoc, List.nil_append]; rfl⟩
  · rw [ht]
    simp only []
    split <;>
      exact ⟨_, by simp only [List.append_assoc, List.nil_append]; rfl⟩

/-- C22: for every service of type file, directory, fifo or filesystem for which
`Util_hasServiceStatus` holds, the `mode` field follows the optional `every` object and
is emitted without quotes, directly between `"mode":` and `,"uid":`, as the octal digits
of the mode reduced modulo 4096 (the mode masked with octal 7777): the digits denote that
value, there are at least one and at most four of them, each is a character from `0` to
`7` (code 48 to 55), and the first digit is `0` only when the field is the single digit
`0`, so that there is no leading zero. -/
theorem mode_is_octal_of_low_bits (M : Env) (S : Service_T) (B : StringBuffer_T) (V : Int)
    (hs : M.x.Util_hasServiceStatus S = true)
    (ht : S.type = Service_Type.Service_File ∨ S.type = Service_Type.Service_Directory
      ∨ S.type = Service_Type.Service_Fifo ∨ S.type = Service_Type.Service_Filesystem) :
    (∃ rest : List Char,
        json_status_service M S B V
          = B ++ json_service_header M S [] V ++ json_service_common S []
              ++ commaSeparated
                  ((S.dependantlist.filterMap (fun d => d.dependant)).map quoted)
              ++ "]".data ++ json_service_every M S []
              ++ ",\"mode\":".data ++ fmt_o (permissionMode S % 4096).toNat ++ ",\"uid\":".data ++ rest)
      ∧ octalValue (fmt_o (permissionMode S % 4096).toNat) = (permissionMode S % 4096).toNat
      ∧ (permissionMode S % 4096).toNat < 4096
      ∧ 1 ≤ (fmt_o (permissionMode S % 4096).toNat).length
      ∧ (fmt_o (permissionMode S % 4096).toNat).length ≤ 4
      ∧ (∀ c ∈ fmt_o (permissionMode S % 4096).toNat, 48 ≤ c.toNat ∧ c.toNat ≤ 55)
      ∧ (fmt_o (permissionMode S % 4096).toNat = ['0']
          ∨ (fmt_o (permissionMode S % 4096).toNat).head? ≠ some '0') := by
  have hlt : (permissionMode S % 4096).toNat < 4096 := by omega
  obtain ⟨h1, h2, h3, h4, h5⟩ := fmt_o_below_4096 _ hlt
  refine ⟨?_, h1, hlt, h2, h3, h4, h5⟩
  obtain ⟨rest, hr⟩ := json_service_info_mode M S ht
  refine ⟨rest ++ ",\"icmp\":[".data ++ commaSeparated (S.icmplist.map (fun i => json_icmp M i []))
      ++ "],\"port\":[".data ++ commaSeparated (S.portlist.map (fun p => json_port M p []))
      ++ "],\"unix\":[".data ++ commaSeparated (S.socketlist.map (fun p => json_unix M p []))
      ++ "]".data ++ json_service_system M S [] ++ json_service_program S [] ++ "\x7d".data, ?_⟩
  rw [json_status_service_eq, hs, hr]
  simp only [if_true, List.append_assoc]

set_option maxRecDepth 100000 in
/-- Witness of C22: a monitored file service with mode 0100644 (33188) has the field
`"mode":644`, and a monitored fifo with mode 010600 (4480) has `"mode":600`. -/
theorem mode_is_octal_of_low_bits_witness :
    octalValue (fmt_o (permissionMode (demoServiceOf Service_Type.Service_File 1) % 4096).toNat)
        = 420
      ∧ json_status_service demoEnv (demoServiceOf Service_Type.Service_File 1) [] 1
        = "\x7b\"@type\":2,\"name\":\"web\",\"collected_sec\":1700000100,\"collected_usec\":999,\"status\":0,\"status_hint\":0,\"monitor\":1,\"monitormode\":0,\"onreboot\":0,\"pendingaction\":0,\"depends_on\":[],\"mode\":644,\"uid\":0,\"gid\":0,\"timestamp\":1700000001,\"size\":12345,\"icmp\":[],\"port\":[],\"unix\":[]\x7d".data
      ∧ json_status_service demoEnv (demoServiceOf Service_Type.Service_Fifo 1) [] 1
        = "\x7b\"@type\":6,\"name\":\"web\",\"collected_sec\":1700000100,\"collected_usec\":999,\"status\":0,\"status_hint\":0,\"monitor\":1,\"monitormode\":0,\"onreboot\":0,\"pendingaction\":0,\"depends_on\":[],\"mode\":600,\"uid\":0,\"gid\":0,\"timestamp\":1700000003,\"icmp\":[],\"port\":[],\"unix\":[]\x7d".data :=
  ⟨(mode_is_octal_of_low_bits demoEnv (demoServiceOf Service_Type.Service_File 1) [] 1
      (by decide) (Or.inl rfl)).2.1.trans (by decide),
   by decide, by decide⟩

/-! ## The escaper: quotes, backslash runs and concatenation -/

theorem trailingBackslashes_concat (xs : List Char) (c : Char) :
    trailingBackslashes (xs ++ [c])
      = if c = BACKSLASH then trailingBackslashes xs + 1 else 0 := by
  unfold trailingBackslashes
  rw [List.reverse_append, List.reverse_singleton, List.singleton_append,
    List.takeWhile_cons]
  by_cases h : c = BACKSLASH
  · simp only [h, decide_True, if_true, List.length_cons]
  · simp only [h, decide_False, if_false, List.length_nil, Bool.false_eq_true]

theorem split_concat (pre post xs : List Char) (q y : Char)
    (h : pre ++ q :: post = xs ++ [y]) :
    (post = [] ∧ pre = xs ∧ q = y) ∨ (∃ rest, post = rest ++ [y] ∧ xs = pre ++ q :: rest) := by
  rcases List.eq_nil_or_concat post with hp | ⟨rest, z, hp⟩
  · subst hp
    left
    have h2 : pre ++ [q] = xs ++ [y] := h
    have h3 := List.append_inj_left' h2 rfl
    have h4 := List.append_inj_right' h2 rfl
    exact ⟨rfl, h3, List.singleton_inj.mp h4⟩
  · subst hp
    right
    have h2 : (pre ++ q :: rest) ++ [z] = xs ++ [y] := by
      rw [← h]
      simp only [List.append_assoc, List.cons_append, List.concat_eq_append]
    have h3 := List.append_inj_left' h2 rfl
    have h4 := List.append_inj_right' h2 rfl
    refine ⟨rest, ?_, h3.symm⟩
    rw [List.concat_eq_append, List.singleton_inj.mp h4]

theorem escaped_runs (s : List Char) :
    (∀ pre post : List Char, s.flatMap escapeRule = pre ++ DQUOTE :: post →
        trailingBackslashes pre % 2 = 1)
      ∧ trailingBackslashes (s.flatMap escapeRule) % 2 = 0 := by
  induction s using List.reverseRecOn with
  | nil =>
    refine ⟨?_, rfl⟩
    intro pre post h
    cases pre <;> simp at h
  | append_singleton s c ih =>
    obtain ⟨ihq, iht⟩ := ih
    have hE : (s ++ [c]).flatMap escapeRule = s.flatMap escapeRule ++ escapeRule c := by
      simp only [List.flatMap_append, List.flatMap_cons, List.flatMap_nil, List.append_nil]
    rw [hE]
    by_cases h1 : c = BACKSLASH
    · have hr : escapeRule c = [BACKSLASH, BACKSLASH] := by
        simp only [escapeRule, h1, if_true]
      rw [hr]
      have hcat : s.flatMap escapeRule ++ [BACKSLASH, BACKSLASH]
          = (s.flatMap escapeRule ++ [BACKSLASH]) ++ [BACKSLASH] := by
        simp only [List.append_assoc, List.cons_append, List.nil_append]
      rw [hcat]
      constructor
      · intro pre post h
        rcases split_concat pre post _ DQUOTE BACKSLASH h.symm with ⟨_, _, hq⟩ | ⟨r1, _, hx⟩
        · exact absurd hq dquote_ne_backslash
        · rcases split_concat pre r1 _ DQUOTE BACKSLASH hx.symm with ⟨_, _, hq⟩ | ⟨r2, _, hy⟩
          · exact absurd hq dquote_ne_backslash
          · exact ihq pre r2 hy
      · rw [trailingBackslashes_concat, trailingBackslashes_concat]
        simp only [if_true]
        omega
    · by_cases h2 : c = DQUOTE
      · have hr : escapeRule c = [BACKSLASH, DQUOTE] := by
          simp only [escapeRule, h2, dquote_ne_backslash, if_false, if_true]
        rw [hr]
        have hcat : s.flatMap escapeRule ++ [BACKSLASH, DQUOTE]
            = (s.flatMap escapeRule ++ [BACKSLASH]) ++ [DQUOTE] := by
          simp only [List.append_assoc, List.cons_append, List.nil_append]
        rw [hcat]
        constructor
        · intro pre post h
          rcases split_concat pre post _ DQUOTE DQUOTE h.symm with ⟨_, hp, _⟩ | ⟨r1, _, hx⟩
          · rw [hp, trailingBackslashes_concat]
            simp only [if_true]
            omega
          · rcases split_concat pre r1 _ DQUOTE BACKSLASH hx.symm with ⟨_, _, hq⟩ | ⟨r2, _, hy⟩
            · exact absurd hq dquote_ne_backslash
            · exact ihq pre r2 hy
        · rw [trailingBackslashes_concat]
          simp only [dquote_ne_backslash, if_false]
      · have hr : escapeRule c = [c] := by
          simp only [escapeRule, h1, h2, if_false]
        rw [hr]
        constructor
        · intro pre post h
          rcases split_concat pre post _ DQUOTE c h.symm with ⟨_, _, hq⟩ | ⟨r1, _, hx⟩
          · exact absurd hq.symm h2
          · exact ihq pre r1 hx
        · rw [trailingBackslashes_concat]
          simp only [h1, if_false]

/-- C23: for every input string, every double-quote in the text `_escapeJSON` appends
has, immediately before it, a maximal run of backslashes of odd length, and the appended
text does not end in a maximal run of backslashes of odd length (the run at its end has
even length, zero included). -/
theorem escaped_quote_after_odd_run (buf : CStr) :
    (∀ pre post : List Char, _escapeJSON [] buf = pre ++ DQUOTE :: post →
        trailingBackslashes pre % 2 = 1)
      ∧ trailingBackslashes (_escapeJSON [] buf) % 2 = 0 := by
  rw [escapeJSON_eq, List.nil_append]
  exact escaped_runs (cstring buf)

/-- Witness of C23: the string of a backslash and a double-quote gives four characters;
the double-quote stands after a run of three backslashes, and the text does not end in a
backslash. -/
theorem escaped_quote_after_odd_run_witness :
    _escapeJSON [] [BACKSLASH, DQUOTE] = [BACKSLASH, BACKSLASH, BACKSLASH, DQUOTE]
      ∧ trailingBackslashes [BACKSLASH, BACKSLASH, BACKSLASH] % 2 = 1
      ∧ trailingBackslashes (_escapeJSON [] [BACKSLASH, DQUOTE]) % 2 = 0 :=
  ⟨by decide,
   (escaped_quote_after_odd_run [BACKSLASH, DQUOTE]).1 [BACKSLASH, BACKSLASH, BACKSLASH] []
     (by decide),
   (escaped_quote_after_odd_run [BACKSLASH, DQUOTE]).2⟩

theorem flatMap_escapeRule_length (s : List Char) :
    (s.flatMap escapeRule).length = s.length + s.count BACKSLASH + s.count DQUOTE := by
  induction s with
  | nil => rfl
  | cons c s ih =>
    rw [List.flatMap_cons, List.length_append, ih, List.length_cons, List.count_cons,
      List.count_cons]
    by_cases h1 : c = BACKSLASH
    · subst h1
      have hq : (BACKSLASH == DQUOTE) = false := by decide
      simp only [escapeRule, if_true, List.length_cons, List.length_nil, beq_self_eq_true, hq,
        Bool.false_eq_true, if_false]
      omega
    · by_cases h2 : c = DQUOTE
      · subst h2
        have hq : (DQUOTE == BACKSLASH) = false := by decide
        simp only [escapeRule, dquote_ne_backslash, if_false, if_true, List.length_cons,
          List.length_nil, beq_self_eq_true, hq, Bool.false_eq_true]
        omega
      · have hb1 : (c == BACKSLASH) = false := by simpa using h1
        have hb2 : (c == DQUOTE) = false := by simpa using h2
        simp only [escapeRule, h1, h2, if_false, List.length_cons, List.length_nil, hb1, hb2,
          Bool.false_eq_true]
        omega

/-- C24: for all strings `a` and `b` without an embedded NUL, `_escapeJSON` on `a ++ b`
appends what it appends for `a` followed by what it appends for `b`, and the call on
`a ++ b` is the call on `b` after the call on `a`; the length of the text appended for a
string is the length of the string plus the number of its backslashes and of its
double-quotes. -/
theorem escapeJSON_concat (B : StringBuffer_T) (a b : List Char)
    (ha : ∀ c ∈ a, c ≠ NUL) (hb : ∀ c ∈ b, c ≠ NUL) :
    _escapeJSON [] (a ++ b) = _escapeJSON [] a ++ _escapeJSON [] b
      ∧ _escapeJSON B (a ++ b) = _escapeJSON (_escapeJSON B a) b
      ∧ (_escapeJSON [] a).length = a.length + a.count BACKSLASH + a.count DQUOTE
      ∧ (_escapeJSON [] (a ++ b)).length
          = (a ++ b).length + (a ++ b).count BACKSLASH + (a ++ b).count DQUOTE
      ∧ (_escapeJSON B a).length
          = B.length + (a.length + a.count BACKSLASH + a.count DQUOTE) := by
  have hab : ∀ c ∈ a ++ b, c ≠ NUL := by
    intro c hc
    rcases List.mem_append.mp hc with h | h
    · exact ha c h
    · exact hb c h
  simp only [escapeJSON_eq, cstring_of_no_nul a ha, cstring_of_no_nul b hb,
    cstring_of_no_nul (a ++ b) hab, List.nil_append, List.flatMap_append, List.append_assoc,
    List.length_append, flatMap_escapeRule_length, List.count_append, true_and, and_true]
  omega

/-- Witness of C24: a string that ends in a backslash followed by one that starts with a
double-quote. -/
theorem escapeJSON_concat_witness :
    _escapeJSON [] (['a', BACKSLASH] ++ [DQUOTE, 'b'])
        = _escapeJSON [] ['a', BACKSLASH] ++ _escapeJSON [] [DQUOTE, 'b']
      ∧ (_escapeJSON [] (['a', BACKSLASH] ++ [DQUOTE, 'b'])).length = 6 :=
  ⟨(escapeJSON_concat [] ['a', BACKSLASH] [DQUOTE, 'b'] (by decide) (by decide)).1,
   by decide⟩

/-! ## Format versions other than 2 -/

theorem json_document_head_not_2 (M : Env) (B : StringBuffer_T) (V : Int)
    (myip : Option CStr) (hV : V ≠ 2) :
    json_document_head M B V myip = json_document_head M B 1 myip := by
  have h1 : ¬ ((1 : Int) = 2) := by decide
  unfold json_document_head
  rw [if_neg hV, if_neg h1]

theorem json_status_service_not_2 (M : Env) (S : Service_T) (B : StringBuffer_T) (V : Int)
    (hV : V ≠ 2) :
    json_status_service M S B V = json_status_service M S B 1 := by
  have h1 : ¬ ((1 : Int) = 2) := by decide
  unfold json_status_service json_service_header
  rw [if_neg hV, if_neg h1]

theorem json_services_not_2 (M : Env) (V : Int) (hV : V ≠ 2) (l : List Service_T)
    (B : StringBuffer_T) (comma : Bool) :
    json_services M V l B comma = json_services M 1 l B comma := by
  induction l generalizing B comma with
  | nil => rfl
  | cons S next ih =>
    unfold json_services
    simp only [json_status_service_not_2 M S _ V hV, ih]

/-- C25: for every snapshot, event (or none) and integer `V` other than 2, zero, 3 and
the negative values included, `status_json` produces exactly the document it produces
for `V = 1`. -/
theorem version_other_than_2_is_version_1 (M : Env) (B : StringBuffer_T)
    (E : Option Event_T) (V : Int) (myip : Option CStr) (hV : V ≠ 2) :
    status_json M B E V myip = status_json M B E 1 myip := by
  have h1 : ¬ ((1 : Int) = 2) := by decide
  unfold status_json
  simp only [if_neg hV, if_neg h1, json_document_head_not_2 M B V myip hV,
    json_services_not_2 M V hV]

set_option maxRecDepth 100000 in
/-- Witness of C25: the versions 0, 3 and -1 on a snapshot with one service and one
event give the document of version 1, which differs from the document of version 2. -/
theorem version_other_than_2_is_version_1_witness :
    status_json (demoEnvWith [demoService [] none] []) [] (some (demoEvent none)) 0 none
        = status_json (demoEnvWith [demoService [] none] []) [] (some (demoEvent none)) 1 none
      ∧ status_json (demoEnvWith [demoService [] none] []) [] (some (demoEvent none)) 3 none
        = status_json (demoEnvWith [demoService [] none] []) [] (some (demoEvent none)) 1 none
      ∧ status_json (demoEnvWith [demoService [] none] []) [] (some (demoEvent none)) (-1) none
        = status_json (demoEnvWith [demoService [] none] []) [] (some (demoEvent none)) 1 none
      ∧ status_json (demoEnvWith [demoService [] none] []) [] (some (demoEvent none)) 1 none
        ≠ status_json (demoEnvWith [demoService [] none] []) [] (some (demoEvent none)) 2 none :=
  ⟨version_other_than_2_is_version_1 _ [] _ 0 none (by decide),
   version_other_than_2_is_version_1 _ [] _ 3 none (by decide),
   version_other_than_2_is_version_1 _ [] _ (-1) none (by decide),
   by decide⟩

/-! ## The check arrays and the recurrence object, text by text -/

theorem json_icmp_text (M : Env) (i : Icmp_T) :
    json_icmp M i []
      = "\x7b\"type\":\"".data ++ cstring (M.h.icmpnames i.type) ++ "\",\"responsetime\":".data
          ++ fmt_f 6 (if i.is_available = M.h.Connection_Ok then Dbl.div i.response Dbl.c1000
              else Dbl.minusOne)
          ++ "\x7d".data := by
  simp only [json_icmp, List.nil_append, List.append_assoc]

theorem json_port_text (M : Env) (p : Port_T) :
    json_port M p []
      = "\x7b\"hostname\":\"".data ++ fmt_s_or_empty p.hostname
          ++ "\",\"portnumber\":".data ++ fmt_d p.target_net_port ++ ",\"request\":\"".data
          ++ (cstring (M.x.Util_portRequestDescription p)).flatMap escapeRule
          ++ "\",\"protocol\":\"".data ++ fmt_s_or_empty p.protocol_name
          ++ "\",\"type\":\"".data ++ cstring (M.x.Util_portTypeDescription p)
          ++ "\",\"responsetime\":".data
          ++ fmt_f 6 (if p.is_available = M.h.Connection_Ok then Dbl.div p.response Dbl.c1000
              else Dbl.minusOne)
          ++ "\x7d".data := by
  simp only [json_port, escapeJSON_eq, List.nil_append, List.append_assoc]

theorem json_unix_text (M : Env) (p : Port_T) :
    json_unix M p []
      = "\x7b\"path\":\"".data ++ fmt_s_or_empty p.target_unix_pathname
          ++ "\",\"protocol\":\"".data ++ fmt_s_or_empty p.protocol_name
          ++ "\",\"responsetime\":".data
          ++ fmt_f 6 (if p.is_available = M.h.Connection_Ok then Dbl.div p.response Dbl.c1000
              else Dbl.minusOne)
          ++ "\x7d".data := by
  simp only [json_unix, List.nil_append, List.append_assoc]

theorem json_service_every_text (M : Env) (S : Service_T) :
    json_service_every M S []
      = (if S.every_type = M.h.Every_Cycle then []
          else if S.every_type = 1 then
            ",\"every\":\x7b\"type\":".data ++ fmt_d S.every_type
              ++ ",\"counter\":".data ++ fmt_d S.every_counter
              ++ ",\"number\":".data ++ fmt_d S.every_number ++ "\x7d".data
          else
            ",\"every\":\x7b\"type\":".data ++ fmt_d S.every_type
              ++ ",\"cron\":\"".data ++ cstring S.every_cron ++ "\"\x7d".data) := by
  unfold json_service_every
  by_cases h0 : S.every_type = M.h.Every_Cycle
  · rw [if_neg (not_not.mpr h0), if_pos h0]
  · rw [if_pos h0, if_neg h0]
    by_cases h1 : S.every_type = 1
    · rw [if_pos h1]
      simp only [if_pos h1, List.append_assoc, List.cons_append, List.nil_append]
    · rw [if_neg h1]
      simp only [if_neg h1, List.append_assoc, List.cons_append, List.nil_append]

/-- C9: for every service for which `Util_hasServiceStatus` holds, whatever its type, the
encoding is the header, the common fields, the dependency array, the optional `every`
object and the fields of the type, followed by the three arrays `icmp`, `port` and
`unix` in that order, followed by the optional `system` and `program` objects and the
closing brace. Each array holds exactly one object per check of its list, in list order,
separated by single commas, with nothing between the brackets for an empty list: the
object of an ICMP check is its type name and response time, that of a network-port check
its hostname, port number, escaped request, protocol, type description and response time,
that of a local-socket check its path, protocol and response time. -/
theorem check_arrays_in_order (M : Env) (S : Service_T) (B : StringBuffer_T) (V : Int)
    (h : M.x.Util_hasServiceStatus S = true) :
    json_status_service M S B V
      = B ++ json_service_header M S [] V ++ json_service_common S []
          ++ commaSeparated ((S.dependantlist.filterMap (fun d => d.dependant)).map quoted)
          ++ "]".data ++ json_service_every M S [] ++ json_service_info M S []
          ++ ",\"icmp\":[".data
          ++ commaSeparated (S.icmplist.map (fun i =>
              "\x7b\"type\":\"".data ++ cstring (M.h.icmpnames i.type) ++ "\",\"responsetime\":".data
                ++ fmt_f 6 (if i.is_available = M.h.Connection_Ok then
                      Dbl.div i.response Dbl.c1000 else Dbl.minusOne)
                ++ "\x7d".data))
          ++ "],\"port\":[".data
          ++ commaSeparated (S.portlist.map (fun p =>
              "\x7b\"hostname\":\"".data ++ fmt_s_or_empty p.hostname
                ++ "\",\"portnumber\":".data ++ fmt_d p.target_net_port ++ ",\"request\":\"".data
                ++ (cstring (M.x.Util_portRequestDescription p)).flatMap escapeRule
                ++ "\",\"protocol\":\"".data ++ fmt_s_or_empty p.protocol_name
                ++ "\",\"type\":\"".data ++ cstring (M.x.Util_portTypeDescription p)
                ++ "\",\"responsetime\":".data
                ++ fmt_f 6 (if p.is_available = M.h.Connection_Ok then
                      Dbl.div p.response Dbl.c1000 else Dbl.minusOne)
                ++ "\x7d".data))
          ++ "],\"unix\":[".data
          ++ commaSeparated (S.socketlist.map (fun p =>
              "\x7b\"path\":\"".data ++ fmt_s_or_empty p.target_unix_pathname
                ++ "\",\"protocol\":\"".data ++ fmt_s_or_empty p.protocol_name
                ++ "\",\"responsetime\":".data
                ++ fmt_f 6 (if p.is_available = M.h.Connection_Ok then
                      Dbl.div p.response Dbl.c1000 else Dbl.minusOne)
                ++ "\x7d".data))
          ++ "]".data ++ json_service_system M S [] ++ json_service_program S [] ++ "\x7d".data := by
  rw [json_status_service_eq, h]
  simp only [json_icmp_text, json_port_text, json_unix_text, if_true, List.append_assoc]

set_option maxRecDepth 100000 in
/-- Witness of C9: a monitored service with two ICMP checks, two network-port checks and
one local-socket check, and a monitored service without checks, whose three arrays are
empty. -/
theorem check_arrays_in_order_witness :
    json_status_service demoEnv demoServiceWithChecks [] 1
        = "\x7b\"@type\":4,\"name\":\"web\",\"collected_sec\":1700000100,\"collected_usec\":999,\"status\":0,\"status_hint\":0,\"monitor\":1,\"monitormode\":0,\"onreboot\":0,\"pendingaction\":0,\"depends_on\":[],\"icmp\":[\x7b\"type\":\"Ping\",\"responsetime\":0.005000\x7d,\x7b\"type\":\"Unknown\",\"responsetime\":-1.000000\x7d],\"port\":[\x7b\"hostname\":\"a.example\",\"portnumber\":80,\"request\":\"/index.html\",\"protocol\":\"HTTP\",\"type\":\"TCP\",\"responsetime\":0.250000\x7d,\x7b\"hostname\":\"\",\"portnumber\":443,\"request\":\"/index.html\",\"protocol\":\"\",\"type\":\"TCP\",\"responsetime\":-1.000000\x7d],\"unix\":[\x7b\"path\":\"/run/x.sock\",\"protocol\":\"DEFAULT\",\"responsetime\":0.003000\x7d]\x7d".data
      ∧ json_status_service demoEnv (demoService [] none) [] 1
        = "\x7b\"@type\":4,\"name\":\"web\",\"collected_sec\":1700000100,\"collected_usec\":999,\"status\":0,\"status_hint\":0,\"monitor\":1,\"monitormode\":0,\"onreboot\":0,\"pendingaction\":0,\"depends_on\":[],\"icmp\":[],\"port\":[],\"unix\":[]\x7d".data :=
  ⟨(check_arrays_in_order demoEnv demoServiceWithChecks [] 1 (by decide)).trans (by decide),
   (check_arrays_in_order demoEnv (demoService [] none) [] 1 (by decide)).trans (by decide)⟩

/-- C17: for every service the encoding is the header, the common fields and the
dependency array, then the `every` object if and only if the type of the recurrence
descriptor is not `Every_Cycle` (for the default policy nothing stands between the bracket
that closes `depends_on` and the fields that depend on `Util_hasServiceStatus`), then
those fields and the closing brace. The object carries the type and then exactly one of
two shapes selected by the type: `counter` and `number` when the type is 1 (the
cycle-based descriptor), and the cron expression as a string for every other type (the
cron-based descriptors). When `Util_hasServiceStatus` does not hold the text after the
bracket is the `every` object and the closing brace, or the closing brace alone. -/
theorem every_object_shape (M : Env) (S : Service_T) (B : StringBuffer_T) (V : Int) :
    json_status_service M S B V
        = B ++ json_service_header M S [] V ++ json_service_common S []
            ++ commaSeparated ((S.dependantlist.filterMap (fun d => d.dependant)).map quoted)
            ++ "]".data
            ++ (if S.every_type = M.h.Every_Cycle then []
                else if S.every_type = 1 then
                  ",\"every\":\x7b\"type\":".data ++ fmt_d S.every_type
                    ++ ",\"counter\":".data ++ fmt_d S.every_counter
                    ++ ",\"number\":".data ++ fmt_d S.every_number ++ "\x7d".data
                else
                  ",\"every\":\x7b\"type\":".data ++ fmt_d S.every_type
                    ++ ",\"cron\":\"".data ++ cstring S.every_cron ++ "\"\x7d".data)
            ++ (if M.x.Util_hasServiceStatus S then
                  json_service_info M S [] ++ ",\"icmp\":[".data
                    ++ commaSeparated (S.icmplist.map (fun i => json_icmp M i []))
                    ++ "],\"port\":[".data
                    ++ commaSeparated (S.portlist.map (fun p => json_port M p []))
                    ++ "],\"unix\":[".data
                    ++ commaSeparated (S.socketlist.map (fun p => json_unix M p []))
                    ++ "]".data ++ json_service_system M S [] ++ json_service_program S []
                else [])
            ++ "\x7d".data
      ∧ (json_service_every M S [] = [] ↔ S.every_type = M.h.Every_Cycle)
      ∧ (S.every_type = M.h.Every_Cycle → json_service_every M S B = B) := by
  refine ⟨?_, ?_, ?_⟩
  · rw [json_status_service_eq, json_service_every_text]
  · rw [json_service_every_text]
    constructor
    · intro h
      by_contra h0
      rw [if_neg h0] at h
      by_cases h1 : S.every_type = 1
      · rw [if_pos h1] at h
        simp at h
      · rw [if_neg h1] at h
        simp at h
    · intro h0
      rw [if_pos h0]
  · intro h0
    unfold json_service_every
    rw [if_neg (not_not.mpr h0)]

set_option maxRecDepth 100000 in
/-- Witness of C17: a service with the default policy has no `every` object even when its
cycle counter is set; a service with a cycle-based descriptor has `counter` and
`number`; a service with a cron-based descriptor has `cron`. -/
theorem every_object_shape_witness :
    json_status_service demoEnv
        { demoServiceOf Service_Type.Service_Process 0 with every_counter := 3 } [] 1
        = "\x7b\"@type\":3,\"name\":\"web\",\"collected_sec\":1700000100,\"collected_usec\":999,\"status\":0,\"status_hint\":0,\"monitor\":0,\"monitormode\":0,\"onreboot\":0,\"pendingaction\":0,\"depends_on\":[]\x7d".data
      ∧ json_status_service demoEnv
          { demoServiceOf Service_Type.Service_Process 0 with
            every_type := 1, every_counter := 3, every_number := 5 } [] 1
        = "\x7b\"@type\":3,\"name\":\"web\",\"collected_sec\":1700000100,\"collected_usec\":999,\"status\":0,\"status_hint\":0,\"monitor\":0,\"monitormode\":0,\"onreboot\":0,\"pendingaction\":0,\"depends_on\":[],\"every\":\x7b\"type\":1,\"counter\":3,\"number\":5\x7d\x7d".data
      ∧ json_status_service demoEnv
          { demoServiceOf Service_Type.Service_Process 0 with
            every_type := 2, every_cron := "* 8-16 * * 1-5".data } [] 1
        = "\x7b\"@type\":3,\"name\":\"web\",\"collected_sec\":1700000100,\"collected_usec\":999,\"status\":0,\"status_hint\":0,\"monitor\":0,\"monitormode\":0,\"onreboot\":0,\"pendingaction\":0,\"depends_on\":[],\"every\":\x7b\"type\":2,\"cron\":\"* 8-16 * * 1-5\"\x7d\x7d".data :=
  ⟨(every_object_shape demoEnv
        { demoServiceOf Service_Type.Service_Process 0 with every_counter := 3 } [] 1).1.trans
      (by decide),
   (every_object_shape demoEnv
        { demoServiceOf Service_Type.Service_Process 0 with
          every_type := 1, every_counter := 3, every_number := 5 } [] 1).1.trans
      (by decide),
   (every_object_shape demoEnv
        { demoServiceOf Service_Type.Service_Process 0 with
          every_type := 2, every_cron := "* 8-16 * * 1-5".data } [] 1).1.trans
      (by decide)⟩

/-! ## Kilobytes in the encoded fields -/

theorem padDigits_one : ∀ k, k < 10 → padDigits 1 k = Nat.toDigits 10 k := by
  decide

theorem fmt_f_megabytesExact (blocks size : Nat) :
    fmt_f 1 (megabytesExact blocks size) = oneDecimal (blocks * size) 1048576 := by
  have hs : Dbl.scaled (megabytesExact blocks size) (10 ^ 1)
      = roundHalfEven (blocks * size * 10) 1048576 := rfl
  have hn : (megabytesExact blocks size).neg = false := rfl
  have h10 : (10 : Nat) ^ 1 = 10 := rfl
  have h1 : ¬ ((1 : Nat) = 0) := by decide
  unfold fmt_f oneDecimal
  simp only [hs]
  rw [hn, h10, if_neg h1, padDigits_one _ (Nat.mod_lt _ (by decide))]
  simp only [Bool.false_eq_true, if_false, List.nil_append]

theorem json_service_system_filesystem (M : Env) (S : Service_T) (B : StringBuffer_T)
    (ht : S.type = Service_Type.Service_Filesystem) : json_service_system M S B = B := by
  unfold json_service_system
  rw [ht]
  rw [if_neg (by simp)]

theorem json_service_program_filesystem (S : Service_T) (B : StringBuffer_T)
    (ht : S.type = Service_Type.Service_Filesystem) : json_service_program S B = B := by
  unfold json_service_program
  rw [ht]
  rw [if_neg (by simp)]

theorem megabytes_of_fields (blocks size : Int) (hb : 0 ≤ blocks) (hs : 0 < size)
    (h : blocks * size < 2 ^ 53) :
    fmt_f 1 (Dbl.mul (Dbl.div (Dbl.ofInt blocks) Dbl.c1048576) (Dbl.ofInt size))
      = oneDecimal (blocks.toNat * size.toNat) 1048576 := by
  obtain ⟨a, ha⟩ := Int.eq_ofNat_of_zero_le hb
  obtain ⟨c, hc⟩ := Int.eq_ofNat_of_zero_le (Int.le_of_lt hs)
  subst ha
  subst hc
  have hc0 : 0 < c := by exact_mod_cast hs
  have hac : a * c < 2 ^ 53 := by exact_mod_cast h
  rw [Int.toNat_ofNat, Int.toNat_ofNat, ← fmt_f_megabytesExact]
  exact megabytes_exact a c hc0 hac

set_option maxRecDepth 100000 in
/-- C19, as stated, fails: for a filesystem of 2^53 + 2^18 + 1 blocks of one byte the
encoder prints `8589934592.2` as usage and total, while the exact value
`blocks * block_size / 1048576` is 8589934592.25000095..., which is `8589934592.3` with
one decimal; the conversion of the block count to `double` has dropped the last bit. -/
theorem megabytes_of_large_block_count_differ :
    (0 : Int) < (demoFilesystem 9007199255003137 1 9007199255003137).inf.filesystem.f_bsize
      ∧ demoEnv.x.Util_hasServiceStatus (demoFilesystem 9007199255003137 1 9007199255003137)
          = true
      ∧ json_status_service demoEnv (demoFilesystem 9007199255003137 1 9007199255003137) [] 1
        = "\x7b\"@type\":0,\"name\":\"web\",\"collected_sec\":1700000100,\"collected_usec\":999,\"status\":0,\"status_hint\":0,\"monitor\":1,\"monitormode\":0,\"onreboot\":0,\"pendingaction\":0,\"depends_on\":[],\"mode\":700,\"uid\":0,\"gid\":0,\"flags\":4096,\"block\":\x7b\"percent\":50.5,\"usage\":8589934592.2,\"total\":8589934592.2\x7d,\"inode\":\x7b\"percent\":0.2,\"usage\":777,\"total\":65536\x7d,\"icmp\":[],\"port\":[],\"unix\":[]\x7d".data
      ∧ oneDecimal (9007199255003137 * 1) 1048576 = "8589934592.3".data := by
  decide

/-- C19, amended: for every filesystem service for which `Util_hasServiceStatus` holds the
encoding has, after the `flags` field, the `block` object with `percent`, `usage` and
`total`. When the block size is zero or negative both `usage` and `total` are `0.0`.
When the block size is positive they are the block counts (`space_total` and `f_blocks`)
converted to `double`, divided by 1048576 and multiplied by the block size converted to
`double`, printed with one decimal. When moreover a block count is not negative and its
byte count `blocks * block_size` is below 2^53, the printed text is that of the exact
value `blocks * block_size / 1048576` rounded to one decimal. -/
theorem filesystem_block_megabytes (M : Env) (S : Service_T) (B : StringBuffer_T) (V : Int)
    (hs : M.x.Util_hasServiceStatus S = true)
    (ht : S.type = Service_Type.Service_Filesystem) :
    ∃ usage total : List Char,
      json_status_service M S B V
          = B ++ json_service_header M S [] V ++ json_service_common S []
              ++ commaSeparated
                  ((S.dependantlist.filterMap (fun d => d.dependant)).map quoted)
              ++ "]".data ++ json_service_every M S []
              ++ ",\"mode\":".data ++ fmt_o (S.inf.filesystem.mode % 4096).toNat
              ++ ",\"uid\":".data ++ fmt_d (toInt S.inf.filesystem.uid)
              ++ ",\"gid\":".data ++ fmt_d (toInt S.inf.filesystem.gid)
              ++ ",\"flags\":".data ++ fmt_d S.inf.filesystem.flags
              ++ ",\"block\":\x7b\"percent\":".data ++ fmt_f 1 S.inf.filesystem.space_percent
              ++ ",\"usage\":".data ++ usage ++ ",\"total\":".data ++ total ++ "\x7d".data
              ++ (if 0 < S.inf.filesystem.f_files then
                    ",\"inode\":\x7b\"percent\":".data ++ fmt_f 1 S.inf.filesystem.inode_percent
                      ++ ",\"usage\":".data ++ fmt_d S.inf.filesystem.inode_total
                      ++ ",\"total\":".data ++ fmt_d S.inf.filesystem.f_files ++ "\x7d".data
                  else [])
              ++ ",\"icmp\":[".data ++ commaSeparated (S.icmplist.map (fun i => json_icmp M i []))
              ++ "],\"port\":[".data ++ commaSeparated (S.portlist.map (fun p => json_port M p []))
              ++ "],\"unix\":[".data ++ commaSeparated (S.socketlist.map (fun p => json_unix M p []))
              ++ "]\x7d".data
        ∧ (S.inf.filesystem.f_bsize ≤ 0 → usage = "0.0".data ∧ total = "0.0".data)
        ∧ (0 < S.inf.filesystem.f_bsize →
            usage = fmt_f 1 (Dbl.mul
                (Dbl.div (Dbl.ofInt S.inf.filesystem.space_total) Dbl.c1048576)
                (Dbl.ofInt S.inf.filesystem.f_bsize))
              ∧ total = fmt_f 1 (Dbl.mul
                (Dbl.div (Dbl.ofInt S.inf.filesystem.f_blocks) Dbl.c1048576)
                (Dbl.ofInt S.inf.filesystem.f_bsize)))
        ∧ (0 < S.inf.filesystem.f_bsize → 0 ≤ S.inf.filesystem.space_total →
            S.inf.filesystem.space_total * S.inf.filesystem.f_bsize < 2 ^ 53 →
            usage = oneDecimal
              (S.inf.filesystem.space_total.toNat * S.inf.filesystem.f_bsize.toNat) 1048576)
        ∧ (0 < S.inf.filesystem.f_bsize → 0 ≤ S.inf.filesystem.f_blocks →
            S.inf.filesystem.f_blocks * S.inf.filesystem.f_bsize < 2 ^ 53 →
            total = oneDecimal
              (S.inf.filesystem.f_blocks.toNat * S.inf.filesystem.f_bsize.toNat) 1048576) := by
  refine ⟨(if 0 < S.inf.filesystem.f_bsize then
              fmt_f 1 (Dbl.mul
                (Dbl.div (Dbl.ofInt S.inf.filesystem.space_total) Dbl.c1048576)
                (Dbl.ofInt S.inf.filesystem.f_bsize))
            else "0.0".data),
          (if 0 < S.inf.filesystem.f_bsize then
              fmt_f 1 (Dbl.mul
                (Dbl.div (Dbl.ofInt S.inf.filesystem.f_blocks) Dbl.c1048576)
                (Dbl.ofInt S.inf.filesystem.f_bsize))
            else "0.0".data), ?_, ?_, ?_, ?_, ?_⟩
  · rw [json_status_service_eq, hs, json_service_info_filesystem M S ht,
      json_service_system_filesystem M S [] ht, json_service_program_filesystem S [] ht]
    simp only [if_true, List.append_assoc, List.append_nil, List.cons_append,
      List.nil_append]
  · intro hb
    exact ⟨if_neg (not_lt.mpr hb), if_neg (not_lt.mpr hb)⟩
  · intro hb
    exact ⟨if_pos hb, if_pos hb⟩
  · intro hb h0 h
    rw [if_pos hb]
    exact megabytes_of_fields _ _ h0 hb h
  · intro hb h0 h
    rw [if_pos hb]
    exact megabytes_of_fields _ _ h0 hb h

set_option maxRecDepth 100000 in
/-- Witness of C19 amended: a monitored filesystem service with 1000000 blocks in use out
of 2000000 blocks of 4096 bytes has usage 3906.2 (the exact value is 3906.25) and total
7812.5; with a block size of zero both are 0.0. -/
theorem filesystem_block_megabytes_witness :
    json_status_service demoEnv (demoFilesystem 1000000 4096 2000000) [] 1
        = "\x7b\"@type\":0,\"name\":\"web\",\"collected_sec\":1700000100,\"collected_usec\":999,\"status\":0,\"status_hint\":0,\"monitor\":1,\"monitormode\":0,\"onreboot\":0,\"pendingaction\":0,\"depends_on\":[],\"mode\":700,\"uid\":0,\"gid\":0,\"flags\":4096,\"block\":\x7b\"percent\":50.5,\"usage\":3906.2,\"total\":7812.5\x7d,\"inode\":\x7b\"percent\":0.2,\"usage\":777,\"total\":65536\x7d,\"icmp\":[],\"port\":[],\"unix\":[]\x7d".data
      ∧ json_status_service demoEnv (demoFilesystem 1000000 0 2000000) [] 1
        = "\x7b\"@type\":0,\"name\":\"web\",\"collected_sec\":1700000100,\"collected_usec\":999,\"status\":0,\"status_hint\":0,\"monitor\":1,\"monitormode\":0,\"onreboot\":0,\"pendingaction\":0,\"depends_on\":[],\"mode\":700,\"uid\":0,\"gid\":0,\"flags\":4096,\"block\":\x7b\"percent\":50.5,\"usage\":0.0,\"total\":0.0\x7d,\"inode\":\x7b\"percent\":0.2,\"usage\":777,\"total\":65536\x7d,\"icmp\":[],\"port\":[],\"unix\":[]\x7d".data := by
  constructor
  · obtain ⟨usage, total, h, _, _, hu, ht⟩ :=
      filesystem_block_megabytes demoEnv (demoFilesystem 1000000 4096 2000000) [] 1
        (by decide) rfl
    rw [h, hu (by decide) (by decide) (by decide), ht (by decide) (by decide) (by decide)]
    decide
  · obtain ⟨usage, total, h, hz, _, _, _⟩ :=
      filesystem_block_megabytes demoEnv (demoFilesystem 1000000 0 2000000) [] 1
        (by decide) rfl
    rw [h, (hz (by decide)).1, (hz (by decide)).2]
    decide

/-! ## Absent strings, one at a time -/

theorem json_status_service_Run (M : Env) (R R1 : Run_T) (hf : R.flags = R1.flags)
    (S : Service_T) (B : StringBuffer_T) (V : Int) :
    json_status_service { M with Run := R } S B V
      = json_status_service { M with Run := R1 } S B V := by
  rw [json_status_service_eq, json_status_service_eq]
  have hi : json_service_info { M with Run := R } S []
      = json_service_info { M with Run := R1 } S [] := by
    unfold json_service_info
    simp only [hf]
  have hy : json_service_system { M with Run := R } S []
      = json_service_system { M with Run := R1 } S [] := by
    unfold json_service_system
    simp only [hf]
  rw [hi, hy]
  rfl

theorem status_json_Run (M : Env) (R R1 : Run_T) (hf : R.flags = R1.flags)
    (B : StringBuffer_T) (E : Option Event_T) (V : Int) (myip : Option CStr)
    (hhead : json_document_head { M with Run := R } [] V myip
      = json_document_head { M with Run := R1 } [] V myip) :
    status_json { M with Run := R } B E V myip
      = status_json { M with Run := R1 } B E V myip := by
  rw [status_json_eq, status_json_eq, hhead]
  simp only [json_status_service_Run M R R1 hf]
  cases E <;> rfl

theorem json_status_service_null_name (M : Env) (S : Service_T) (B : StringBuffer_T)
    (V : Int)
    (hx : M.x.Util_hasServiceStatus { S with name := none }
      = M.x.Util_hasServiceStatus { S with name := some [] }) :
    json_status_service M { S with name := none } B V
      = json_status_service M { S with name := some [] } B V := by
  rw [json_status_service_eq, json_status_service_eq, hx]
  rfl

set_option maxHeartbeats 4000000 in
/-- C20, amended: a NULL string is emitted as the empty string, and the text around it is
the text the encoder emits when the string is empty. For the local hostname, the
control-file path and the socket path of the listener this holds for the whole document.
A NULL listener address is emitted as the client address passed to the call, and as the
empty string when that is NULL too, the rest of the document being the same. For the
name of a service it holds for the entry of the service (its first field is `"name":""`,
or `"@name":""` in version 2), provided `Util_hasServiceStatus` does not tell a NULL
name from an empty one. For the hostname and the protocol name of a network-port check
and for the path and the protocol name of a local-socket check, each alone, the field is
`""` and the other fields of the object of the check are unchanged. The functions are
total. -/
theorem null_strings_are_empty (M : Env) (S : Service_T) (p : Port_T) (B : StringBuffer_T)
    (E : Option Event_T) (V : Int) (myip : Option CStr) :
    status_json { M with Run := { M.Run with system_name := none } } B E V myip
        = status_json { M with Run := { M.Run with system_name := some [] } } B E V myip
      ∧ status_json { M with Run := { M.Run with files_control := none } } B E V myip
        = status_json { M with Run := { M.Run with files_control := some [] } } B E V myip
      ∧ status_json
          { M with Run := { M.Run with httpd_socket_unix_path := none } } B E V myip
        = status_json
          { M with Run := { M.Run with httpd_socket_unix_path := some [] } } B E V myip
      ∧ status_json
          { M with Run := { M.Run with httpd_socket_net_address := none } } B E V myip
        = status_json
          { M with Run := { M.Run with
              httpd_socket_net_address := some (match myip with
                                                | some ip => ip
                                                | none => []) } } B E V myip
      ∧ (M.x.Util_hasServiceStatus { S with name := none }
            = M.x.Util_hasServiceStatus { S with name := some [] } →
          json_status_service M { S with name := none } B V
            = json_status_service M { S with name := some [] } B V)
      ∧ (S.name = none →
          json_service_header M S B 1
              = B ++ "\x7b\"@type\":".data ++ fmt_d (M.h.Service_Type_value S.type) ++ ",\"name\":\"\",".data
            ∧ json_service_header M S B 2
              = B ++ "\x7b\"@name\":\"\",\"type\":".data ++ fmt_d (M.h.Service_Type_value S.type) ++ ",".data)
      ∧ (p.hostname = none →
          json_port M p B
            = B ++ "\x7b\"hostname\":\"\",\"portnumber\":".data ++ fmt_d p.target_net_port
                ++ ",\"request\":\"".data
                ++ (cstring (M.x.Util_portRequestDescription p)).flatMap escapeRule
                ++ "\",\"protocol\":\"".data ++ fmt_s_or_empty p.protocol_name
                ++ "\",\"type\":\"".data ++ cstring (M.x.Util_portTypeDescription p)
                ++ "\",\"responsetime\":".data
                ++ fmt_f 6 (if p.is_available = M.h.Connection_Ok then
                      Dbl.div p.response Dbl.c1000 else Dbl.minusOne)
                ++ "\x7d".data)
      ∧ (p.protocol_name = none →
          json_port M p B
            = B ++ "\x7b\"hostname\":\"".data ++ fmt_s_or_empty p.hostname
                ++ "\",\"portnumber\":".data ++ fmt_d p.target_net_port
                ++ ",\"request\":\"".data
                ++ (cstring (M.x.Util_portRequestDescription p)).flatMap escapeRule
                ++ "\",\"protocol\":\"\",\"type\":\"".data ++ cstring (M.x.Util_portTypeDescription p)
                ++ "\",\"responsetime\":".data
                ++ fmt_f 6 (if p.is_available = M.h.Connection_Ok then
                      Dbl.div p.response Dbl.c1000 else Dbl.minusOne)
                ++ "\x7d".data)
      ∧ (p.target_unix_pathname = none →
          json_unix M p B
            = B ++ "\x7b\"path\":\"\",\"protocol\":\"".data ++ fmt_s_or_empty p.protocol_name
                ++ "\",\"responsetime\":".data
                ++ fmt_f 6 (if p.is_available = M.h.Connection_Ok then
                      Dbl.div p.response Dbl.c1000 else Dbl.minusOne)
                ++ "\x7d".data)
      ∧ (p.protocol_name = none →
          json_unix M p B
            = B ++ "\x7b\"path\":\"".data ++ fmt_s_or_empty p.target_unix_pathname
                ++ "\",\"protocol\":\"\",\"responsetime\":".data
                ++ fmt_f 6 (if p.is_available = M.h.Connection_Ok then
                      Dbl.div p.response Dbl.c1000 else Dbl.minusOne)
                ++ "\x7d".data) := by
  refine ⟨?_, ?_, ?_, ?_, json_status_service_null_name M S B V, ?_, ?_, ?_, ?_, ?_⟩
  · exact status_json_Run M { M.Run with system_name := none }
      { M.Run with system_name := some [] } rfl B E V myip rfl
  · exact status_json_Run M { M.Run with files_control := none }
      { M.Run with files_control := some [] } rfl B E V myip rfl
  · exact status_json_Run M { M.Run with httpd_socket_unix_path := none }
      { M.Run with httpd_socket_unix_path := some [] } rfl B E V myip rfl
  · cases myip with
    | none =>
      exact status_json_Run M { M.Run with httpd_socket_net_address := none }
        { M.Run with httpd_socket_net_address := some [] } rfl B E V none rfl
    | some ip =>
      exact status_json_Run M { M.Run with httpd_socket_net_address := none }
        { M.Run with httpd_socket_net_address := some ip } rfl B E V (some ip) rfl
  · intro h
    have h1 : ¬ ((1 : Int) = 2) := by decide
    constructor
    · unfold json_service_header
      rw [if_neg h1, h]
      simp only [fmt_s_or_empty, List.append_assoc, List.cons_append, List.nil_append,
        List.append_nil]
    · unfold json_service_header
      rw [if_pos rfl, h]
      simp only [fmt_s_or_empty, List.append_assoc, List.cons_append, List.nil_append,
        List.append_nil]
  · intro h
    simp only [json_port, h, fmt_s_or_empty, escapeJSON_eq, List.append_assoc,
      List.cons_append, List.nil_append, List.append_nil]
  · intro h
    simp only [json_port, h, fmt_s_or_empty, escapeJSON_eq, List.append_assoc,
      List.cons_append, List.nil_append, List.append_nil]
  · intro h
    simp only [json_unix, h, fmt_s_or_empty, List.append_assoc,
      List.cons_append, List.nil_append, List.append_nil]
  · intro h
    simp only [json_unix, h, fmt_s_or_empty, List.append_assoc,
      List.cons_append, List.nil_append, List.append_nil]

set_option maxRecDepth 100000 in
/-- Witness of C20 amended: a service with a NULL name, with a network-port check whose
hostname alone is NULL and a local-socket check whose protocol name alone is NULL; and
the document of a snapshot whose local hostname is NULL. -/
theorem null_strings_are_empty_witness :
    json_status_service demoEnv
        { demoService [] none with
          name := none
          portlist := [⟨none, 80, none, some "HTTP".data, 1, ⟨false, 250, 0⟩⟩]
          socketlist := [⟨none, 0, some "/run/x.sock".data, none, 1, ⟨false, 3, 0⟩⟩] } [] 1
        = "\x7b\"@type\":4,\"name\":\"\",\"collected_sec\":1700000100,\"collected_usec\":999,\"status\":0,\"status_hint\":0,\"monitor\":1,\"monitormode\":0,\"onreboot\":0,\"pendingaction\":0,\"depends_on\":[],\"icmp\":[],\"port\":[\x7b\"hostname\":\"\",\"portnumber\":80,\"request\":\"/index.html\",\"protocol\":\"HTTP\",\"type\":\"TCP\",\"responsetime\":0.250000\x7d],\"unix\":[\x7b\"path\":\"/run/x.sock\",\"protocol\":\"\",\"responsetime\":0.003000\x7d]\x7d".data
      ∧ json_port demoEnv ⟨none, 80, none, some "HTTP".data, 1, ⟨false, 250, 0⟩⟩ []
        = "\x7b\"hostname\":\"\",\"portnumber\":80,\"request\":\"/index.html\",\"protocol\":\"HTTP\",\"type\":\"TCP\",\"responsetime\":0.250000\x7d".data
      ∧ json_unix demoEnv ⟨none, 0, some "/run/x.sock".data, none, 1, ⟨false, 3, 0⟩⟩ []
        = "\x7b\"path\":\"/run/x.sock\",\"protocol\":\"\",\"responsetime\":0.003000\x7d".data
      ∧ (status_json { demoEnv with Run := { demoEnv.Run with system_name := none } } []
            none 1 none).drop 119
        = "\"localhostname\":\"\",\"controlfile\":\"/etc/monitrc\",\"httpd\":\x7b\"address\":\"\",\"port\":2812,\"ssl\":0\x7d\x7d,\"platform\":\x7b\"name\":\"Linux\",\"release\":\"6.1.0\",\"version\":\"#1 SMP\",\"machine\":\"x86_64\",\"cpu\":4,\"memory\":8388608,\"swap\":1\x7d,\"service\":[]\x7d\x7d".data := by
  refine ⟨?_, ?_, ?_, ?_⟩
  · refine ((null_strings_are_empty demoEnv
        { demoService [] none with
          portlist := [⟨none, 80, none, some "HTTP".data, 1, ⟨false, 250, 0⟩⟩]
          socketlist := [⟨none, 0, some "/run/x.sock".data, none, 1, ⟨false, 3, 0⟩⟩] }
        ⟨none, 80, none, none, 1, ⟨false, 3, 0⟩⟩ [] none 1 none).2.2.2.2.1 rfl).trans ?_
    decide
  · exact ((null_strings_are_empty demoEnv (demoService [] none)
        ⟨none, 80, none, some "HTTP".data, 1, ⟨false, 250, 0⟩⟩ [] none 1
        none).2.2.2.2.2.2.1 rfl).trans (by decide)
  · exact ((null_strings_are_empty demoEnv (demoService [] none)
        ⟨none, 0, some "/run/x.sock".data, none, 1, ⟨false, 3, 0⟩⟩ [] none 1
        none).2.2.2.2.2.2.2.2.2 rfl).trans (by decide)
  · rw [(null_strings_are_empty demoEnv (demoService [] none)
        ⟨none, 80, none, none, 1, ⟨false, 3, 0⟩⟩ [] none 1 none).1]
    decide

end MonitJson
